import Mathlib

/-
Verification of the snap action resolver (store package): request building
(instance-key derivation, epoch signalling, validation tri-state), response
correlation, error aggregation and the auth-refresh retry loop.  The Go code
of `SnapAction` / `snapAction` / `genInstanceKey` / `findRev` is embedded
shallowly below; Go maps become insertion-ordered association lists whose
lookup prefers the latest write, Go slices become lists, fallible code
returns `Except String`.
-/

set_option autoImplicit false

namespace Store

/-- JSON values, used to state facts about the serialized request payload. -/
inductive Json where
  | null
  | bool (b : Bool)
  | num (n : Int)
  | str (s : String)
  | arr (elems : List Json)
  | obj (fields : List (String × Json))

/-- Association-list model of a Go map in insertion order: a write is an
append, and lookup returns the latest write for a key (later writes win,
exactly like Go map assignment). -/
def mapLookup {β : Type} : List (String × β) → String → Option β
  | [], _ => none
  | (k', v) :: t, k =>
    match mapLookup t k with
    | some v' => some v'
    | none => if k' = k then some v else none

theorem mapLookup_nil {β : Type} (k : String) : mapLookup ([] : List (String × β)) k = none := rfl

theorem mapLookup_append {β : Type} (l₁ l₂ : List (String × β)) (k : String) :
    mapLookup (l₁ ++ l₂) k =
      match mapLookup l₂ k with
      | some v => some v
      | none => mapLookup l₁ k := by
  induction l₁ with
  | nil =>
    simp only [List.nil_append]
    cases h : mapLookup l₂ k <;> simp [mapLookup, h]
  | cons hd tl ih =>
    obtain ⟨k', v⟩ := hd
    have hstep : mapLookup ((k', v) :: tl ++ l₂) k =
        match mapLookup (tl ++ l₂) k with
        | some v' => some v'
        | none => if k' = k then some v else none := rfl
    rw [hstep, ih]
    cases h₂ : mapLookup l₂ k <;> cases h₁ : mapLookup tl k <;> simp [mapLookup, h₁, h₂]

theorem mapLookup_single_eq {β : Type} (k : String) (v : β) :
    mapLookup [(k, v)] k = some v := by simp [mapLookup]

theorem mapLookup_single_ne {β : Type} (k k' : String) (v : β) (h : k' ≠ k) :
    mapLookup [(k', v)] k = none := by simp [mapLookup, h]

theorem mapLookup_append_single_eq {β : Type} (l : List (String × β)) (k : String) (v : β) :
    mapLookup (l ++ [(k, v)]) k = some v := by
  rw [mapLookup_append, mapLookup_single_eq]

/-! ## Strings, UTF-8, SHA-256 and base64url (raw encoding)

`snap.SplitInstanceName` splits an instance name at the first underscore;
`snap.InstanceSnap` keeps the snap-name part.  `genInstanceKey` hashes
`snapID ++ instanceKey ++ salt` with SHA-256 and encodes the digest with
base64url without padding (Go `base64.RawURLEncoding`).  The hash and the
encoding are implemented executably over `Nat` bytes. -/

/-- Split a list of characters at the first underscore; the second component
is `none` when there is no underscore at all. -/
def splitAtUnderscore : List Char → List Char × Option (List Char)
  | [] => ([], none)
  | c :: cs =>
    if c = '_' then ([], some cs)
    else
      let r := splitAtUnderscore cs
      (c :: r.1, r.2)

/-- Modelled from the spec: `snap.SplitInstanceName` (snap package, not under
src/) splits `snapName_instanceKey` at the first `_` into the snap name and
the instance-key suffix (empty when there is no underscore). -/
def splitInstanceName (s : String) : String × String :=
  let r := splitAtUnderscore s.toList
  (String.mk r.1, String.mk (r.2.getD []))

/-- Modelled from the spec: `snap.InstanceSnap` (snap package, not under
src/) returns the snap-name component of an instance name. -/
def instanceSnap (s : String) : String := (splitInstanceName s).1

/-- UTF-8 encoding of one character as bytes. -/
def utf8EncodeChar (c : Char) : List Nat :=
  let n := c.toNat
  if n < 128 then [n]
  else if n < 2048 then
    [192 + (n / 64), 128 + (n % 64)]
  else if n < 65536 then
    [224 + (n / 4096), 128 + ((n / 64) % 64), 128 + (n % 64)]
  else
    [240 + (n / 262144), 128 + ((n / 4096) % 64), 128 + ((n / 64) % 64), 128 + (n % 64)]

/-- The bytes of a string (UTF-8), as Go's `[]byte(s)`. -/
def strBytes (s : String) : List Nat := (s.toList.map utf8EncodeChar).flatten

/-- Truncate to a 32-bit word. -/
def w32 (n : Nat) : Nat := n % 4294967296

/-- Right rotation of a 32-bit word. -/
def rotr32 (x n : Nat) : Nat := w32 ((x / 2 ^ n) + (x % 2 ^ n) * 2 ^ (32 - n))

def shaCh (x y z : Nat) : Nat := Nat.xor (Nat.land x y) (Nat.land (4294967295 - w32 x) z)

def shaMaj (x y z : Nat) : Nat :=
  Nat.xor (Nat.xor (Nat.land x y) (Nat.land x z)) (Nat.land y z)

def bigSigma0 (x : Nat) : Nat := Nat.xor (Nat.xor (rotr32 x 2) (rotr32 x 13)) (rotr32 x 22)

def bigSigma1 (x : Nat) : Nat := Nat.xor (Nat.xor (rotr32 x 6) (rotr32 x 11)) (rotr32 x 25)

def smallSigma0 (x : Nat) : Nat := Nat.xor (Nat.xor (rotr32 x 7) (rotr32 x 18)) (x / 8)

def smallSigma1 (x : Nat) : Nat := Nat.xor (Nat.xor (rotr32 x 17) (rotr32 x 19)) (x / 1024)

/-- The SHA-256 round constants (decimal). -/
def sha256K : List Nat :=
  [1116352408, 1899447441, 3049323471, 3921009573, 961987163,
   1508970993, 2453635748, 2870763221, 3624381080, 310598401,
   607225278, 1426881987, 1925078388, 2162078206, 2614888103,
   3248222580, 3835390401, 4022224774, 264347078, 604807628,
   770255983, 1249150122, 1555081692, 1996064986, 2554220882,
   2821834349, 2952996808, 3210313671, 3336571891, 3584528711,
   113926993, 338241895, 666307205, 773529912, 1294757372,
   1396182291, 1695183700, 1986661051, 2177026350, 2456956037,
   2730485921, 2820302411, 3259730800, 3345764771, 3516065817,
   3600352804, 4094571909, 275423344, 430227734, 506948616,
   659060556, 883997877, 958139571, 1322822218, 1537002063,
   1747873779, 1955562222, 2024104815, 2227730452, 2361852424,
   2428436474, 2756734187, 3204031479, 3329325298]

/-- The SHA-256 initial hash state (decimal). -/
def sha256H0 : List Nat :=
  [1779033703, 3144134277, 1013904242,
   2773480762, 1359893119, 2600822924,
   528734635, 1541459225]

/-- SHA-256 message padding: append 0x80, zero bytes, and the 64-bit
big-endian bit length so the total length is a multiple of 64 bytes. -/
def sha256pad (msg : List Nat) : List Nat :=
  let len := msg.length
  let padZeros := (119 - len % 64) % 64
  let bitLen := len * 8
  msg ++ [128] ++ List.replicate padZeros 0 ++
    [w32 (bitLen / 72057594037927936) % 256, (bitLen / 281474976710656) % 256,
     (bitLen / 1099511627776) % 256, (bitLen / 4294967296) % 256,
     (bitLen / 16777216) % 256, (bitLen / 65536) % 256,
     (bitLen / 256) % 256, bitLen % 256]

/-- Group bytes into big-endian 32-bit words. -/
def groupWords : List Nat → List Nat
  | b0 :: b1 :: b2 :: b3 :: rest => (((b0 * 256 + b1) * 256 + b2) * 256 + b3) :: groupWords rest
  | _ => []

/-- Group words into blocks of 16. -/
def groupBlocks : List Nat → List (List Nat)
  | w0 :: w1 :: w2 :: w3 :: w4 :: w5 :: w6 :: w7 ::
    w8 :: w9 :: w10 :: w11 :: w12 :: w13 :: w14 :: w15 :: rest =>
      [w0, w1, w2, w3, w4, w5, w6, w7, w8, w9, w10, w11, w12, w13, w14, w15] :: groupBlocks rest
  | _ => []

/-- Extend the message schedule; the accumulator keeps the words most-recent
first. -/
def extendScheduleRev : Nat → List Nat → List Nat
  | 0, rws => rws
  | n + 1, rws =>
    extendScheduleRev n
      (w32 (smallSigma1 (rws.getD 1 0) + rws.getD 6 0 + smallSigma0 (rws.getD 14 0) + rws.getD 15 0)
        :: rws)

/-- The 64-word message schedule of one block. -/
def sha256Schedule (block : List Nat) : List Nat :=
  (extendScheduleRev 48 block.reverse).reverse

/-- One round of the SHA-256 compression function on the running state
`[a, b, c, d, e, f, g, h]`, with `kw` the sum of the round constant and the
schedule word. -/
def sha256Round (st : List Nat) (kw : Nat) : List Nat :=
  let a := st.getD 0 0
  let b := st.getD 1 0
  let c := st.getD 2 0
  let d := st.getD 3 0
  let e := st.getD 4 0
  let f := st.getD 5 0
  let g := st.getD 6 0
  let h := st.getD 7 0
  let t1 := w32 (h + bigSigma1 e + shaCh e f g + kw)
  let t2 := w32 (bigSigma0 a + shaMaj a b c)
  [w32 (t1 + t2), a, b, c, w32 (d + t1), e, f, g]

/-- Compress one 16-word block into the running hash state. -/
def sha256Compress (h : List Nat) (block : List Nat) : List Nat :=
  let ws := sha256Schedule block
  let kws := (sha256K.zip ws).map (fun p => w32 (p.1 + p.2))
  let fin := kws.foldl sha256Round h
  (h.zip fin).map (fun p => w32 (p.1 + p.2))

/-- Big-endian bytes of a 32-bit word. -/
def wordBytes (w : Nat) : List Nat :=
  [(w / 16777216) % 256, (w / 65536) % 256, (w / 256) % 256, w % 256]

/-- SHA-256 of a byte list, as 32 bytes (Go `crypto.SHA256`). -/
def sha256 (msg : List Nat) : List Nat :=
  let blocks := groupBlocks (groupWords (sha256pad msg))
  let h := blocks.foldl sha256Compress sha256H0
  (h.map wordBytes).flatten

/-- The base64url alphabet (Go `base64.RawURLEncoding`). -/
def b64urlAlphabet : List Char :=
  "ABCDEFGHIJKLMNOPQRSTUVWXYZabcdefghijklmnopqrstuvwxyz0123456789-_".toList

def b64Char (n : Nat) : Char := b64urlAlphabet.getD n 'A'

/-- base64url encoding without padding of a byte list. -/
def base64RawURLChars : List Nat → List Char
  | b0 :: b1 :: b2 :: rest =>
    b64Char (b0 / 4) :: b64Char ((b0 % 4) * 16 + b1 / 16) ::
      b64Char ((b1 % 16) * 4 + b2 / 64) :: b64Char (b2 % 64) :: base64RawURLChars rest
  | [b0, b1] =>
    [b64Char (b0 / 4), b64Char ((b0 % 4) * 16 + b1 / 16), b64Char ((b1 % 16) * 4)]
  | [b0] => [b64Char (b0 / 4), b64Char ((b0 % 4) * 16)]
  | [] => []

/-- Go `base64.RawURLEncoding.EncodeToString`. -/
def base64RawURLEncode (bs : List Nat) : String := String.mk (base64RawURLChars bs)

/-! ## Data model -/

/-- Modelled from the spec: `snap.Revision` (snap package, not under src/) is
an integer revision; a revision is unset exactly when the integer is zero
(`revision:<int, omitted if zero>`, "revision (must be set)"). -/
structure Revision where
  N : Int
deriving DecidableEq

/-- `Revision.Unset`. -/
def Revision.unset (r : Revision) : Bool := r.N == 0

/-- `snap.R` on an integer. -/
def R (n : Int) : Revision := ⟨n⟩

/-- Modelled from the spec: `snap.Epoch` (snap package, not under src/) is a
structured version-compatibility marker with read and write components. -/
structure Epoch where
  read : List Nat
  write : List Nat
deriving DecidableEq

/-- Modelled from the spec: `Epoch.IsZero` distinguishes the zero epoch;
claims only depend on this being a decidable predicate on epochs. -/
def Epoch.isZero (e : Epoch) : Bool := e.read == [0] && e.write == [0]

/-- The epoch object as serialized in the request JSON. -/
def epochToJson (e : Epoch) : Json :=
  .obj [("read", .arr (e.read.map (fun n => .num n))),
        ("write", .arr (e.write.map (fun n => .num n)))]

/-- `CurrentSnap` from the source. -/
structure CurrentSnap where
  instanceName : String
  snapID : String
  revision : Revision
  trackingChannel : String
  refreshedDate : Int
  ignoreValidation : Bool
  block : List Revision
  epoch : Epoch
  cohortKey : String
deriving DecidableEq

/-- `SnapActionFlags` constants from the source. -/
def SnapActionIgnoreValidation : Nat := 1

def SnapActionEnforceValidation : Nat := 2

/-- `SnapAction` from the source. -/
structure SnapAction where
  action : String
  instanceName : String
  snapID : String
  channel : String
  revision : Revision
  cohortKey : String
  flags : Nat
  epoch : Epoch
deriving DecidableEq

/-- `isValidAction` from the source (the Go switch over the action kind). -/
def isValidAction (action : String) : Bool :=
  if action = "download" then true
  else if action = "install" then true
  else if action = "refresh" then true
  else false

/-- `currentSnapV2JSON` from the source (context entry of the request). -/
structure currentSnapV2JSON where
  snapID : String
  instanceKey : String
  revision : Int
  trackingChannel : String
  epoch : Epoch
  refreshedDate : Option Int
  ignoreValidation : Bool
  cohortKey : String
deriving DecidableEq

/-- `snapActionJSON` from the source (action entry of the request).  The Go
`Epoch interface{}` trit absent / null / object is an `Option (Option Epoch)`
and the `IgnoreValidation *bool` is an `Option Bool`. -/
structure snapActionJSON where
  action : String
  instanceKey : String
  name : String
  snapID : String
  channel : String
  revision : Int
  cohortKey : String
  ignoreValidation : Option Bool
  epoch : Option (Option Epoch)
deriving DecidableEq

/-- Go `omitempty` on a string field: omitted when empty. -/
def strField (key value : String) : List (String × Json) :=
  if value = "" then [] else [(key, .str value)]

/-- Go `omitempty` on an int field: omitted when zero. -/
def intField (key : String) (value : Int) : List (String × Json) :=
  if value = 0 then [] else [(key, .num value)]

/-- Go `omitempty` on a bool field: omitted when false. -/
def boolField (key : String) (value : Bool) : List (String × Json) :=
  if value then [(key, .bool true)] else []

/-- Go `omitempty` on a `*bool` field: omitted when nil. -/
def boolPtrField (key : String) (value : Option Bool) : List (String × Json) :=
  match value with
  | none => []
  | some b => [(key, .bool b)]

/-- Go `omitempty` on a `*time.Time` field: omitted when nil. -/
def timePtrField (key : String) (value : Option Int) : List (String × Json) :=
  match value with
  | none => []
  | some t => [(key, .num t)]

/-- Go `omitempty` on the `interface{}` epoch field: omitted when the
interface is nil, JSON null when it holds a nil `*snap.Epoch`, the epoch
object otherwise. -/
def epochIfaceField (key : String) (value : Option (Option Epoch)) : List (String × Json) :=
  match value with
  | none => []
  | some none => [(key, .null)]
  | some (some e) => [(key, epochToJson e)]

/-- The key/value pairs of a serialized action entry, in Go field order and
with Go `omitempty` semantics. -/
def snapActionJSONFields (a : snapActionJSON) : List (String × Json) :=
  [("action", .str a.action), ("instance-key", .str a.instanceKey)]
    ++ strField "name" a.name
    ++ strField "snap-id" a.snapID
    ++ strField "channel" a.channel
    ++ intField "revision" a.revision
    ++ strField "cohort-key" a.cohortKey
    ++ boolPtrField "ignore-validation" a.ignoreValidation
    ++ epochIfaceField "epoch" a.epoch

/-- The key/value pairs of a serialized context entry, in Go field order and
with Go `omitempty` semantics. -/
def currentSnapV2JSONFields (c : currentSnapV2JSON) : List (String × Json) :=
  [("snap-id", .str c.snapID), ("instance-key", .str c.instanceKey),
   ("revision", .num c.revision), ("tracking-channel", .str c.trackingChannel),
   ("epoch", epochToJson c.epoch)]
    ++ timePtrField "refreshed-date" c.refreshedDate
    ++ boolField "ignore-validation" c.ignoreValidation
    ++ strField "cohort-key" c.cohortKey

/-- Go `%q` on a string (claims do not depend on escape processing). -/
def quoteStr (s : String) : String := "\"" ++ s ++ "\""

/-- `genInstanceKey` from the source. -/
def genInstanceKey (curSnap : CurrentSnap) (salt : String) : Except String String :=
  let snapInstanceKey := (splitInstanceName curSnap.instanceName).2
  if snapInstanceKey = "" then .ok curSnap.snapID
  else if salt = "" then .error "internal error: request salt not provided"
  else
    .ok (curSnap.snapID ++ ":" ++
      base64RawURLEncode
        (sha256 (strBytes curSnap.snapID ++ strBytes snapInstanceKey ++ strBytes salt)))

/-- The context entry built for one current snap with its derived key
(`snapAction`, context loop body). -/
def mkCurrentSnapJSON (c : CurrentSnap) (instanceKey : String) : currentSnapV2JSON :=
  { snapID := c.snapID
    instanceKey := instanceKey
    revision := c.revision.N
    trackingChannel := if c.trackingChannel = "" then "stable" else c.trackingChannel
    epoch := c.epoch
    refreshedDate := if c.refreshedDate = 0 then none else some c.refreshedDate
    ignoreValidation := c.ignoreValidation
    cohortKey := c.cohortKey }

/-- The context loop of `snapAction`: validates each current snap, derives
its instance key, and builds the `curSnaps` map, the `instanceNameToKey` map
and the context entries, in input order. -/
def buildContext (salt : String) :
    List CurrentSnap →
    Except String (List (String × CurrentSnap) × List (String × String) × List currentSnapV2JSON)
  | [] => .ok ([], [], [])
  | c :: rest =>
    if c.snapID = "" ∨ c.instanceName = "" ∨ c.revision.unset then
      .error "internal error: invalid current snap information"
    else
      match genInstanceKey c salt with
      | .error e => .error e
      | .ok instanceKey =>
        match buildContext salt rest with
        | .error e => .error e
        | .ok (m, n2k, js) =>
          .ok ((instanceKey, c) :: m, (c.instanceName, instanceKey) :: n2k,
            mkCurrentSnapJSON c instanceKey :: js)

/-- The body of the actions loop of `snapAction` for one action: validation,
the `ignore-validation` tri-state, the JSON entry (built before the channel
mutation), the in-place channel clearing when the revision is set, and the
instance-key assignment.  Returns the JSON entry, the mutated action, the
instance key and the updated install/download counters. -/
def buildActionEntry (nameToKey : List (String × String)) (installNum downloadNum : Nat)
    (a : SnapAction) : Except String (snapActionJSON × SnapAction × String × Nat × Nat) :=
  if isValidAction a.action = false then
    .error ("internal error: unsupported action " ++ quoteStr a.action)
  else if a.instanceName = "" then
    .error "internal error: action without instance name"
  else
    let ignoreValidation : Option Bool :=
      if a.flags &&& SnapActionIgnoreValidation ≠ 0 then some true
      else if a.flags &&& SnapActionEnforceValidation ≠ 0 then some false
      else none
    let aJSON0 : snapActionJSON :=
      { action := a.action
        instanceKey := ""
        name := ""
        snapID := a.snapID
        channel := a.channel
        revision := a.revision.N
        cohortKey := a.cohortKey
        ignoreValidation := ignoreValidation
        epoch := none }
    let a1 := if a.revision.unset then a else { a with channel := "" }
    let keyRes : Except String (String × Nat × Nat) :=
      if a.action = "install" then
        .ok ("install-" ++ toString (installNum + 1), installNum + 1, downloadNum)
      else if a.action = "download" then
        if (splitInstanceName a.instanceName).2 ≠ "" then
          .error ("internal error: unsupported download with instance name " ++
            quoteStr a.instanceName)
        else .ok ("download-" ++ toString (downloadNum + 1), installNum, downloadNum + 1)
      else .ok ((mapLookup nameToKey a.instanceName).getD "", installNum, downloadNum)
    match keyRes with
    | .error e => .error e
    | .ok (instanceKey, installNum1, downloadNum1) =>
      let aJSON1 :=
        if a.action ≠ "refresh" then
          { aJSON0 with
            name := instanceSnap a.instanceName
            epoch := some (if a.epoch.isZero then none else some a.epoch) }
        else aJSON0
      .ok ({ aJSON1 with instanceKey := instanceKey }, a1, instanceKey,
        installNum1, downloadNum1)

/-- The tables and lists produced by the actions loop. -/
structure actionsBuild where
  installs : List (String × SnapAction)
  downloads : List (String × SnapAction)
  refreshes : List (String × SnapAction)
  actionJSONs : List snapActionJSON
  mutActions : List SnapAction
deriving DecidableEq

/-- The actions loop of `snapAction`: builds each entry in input order,
threading the 1-based install/download counters and inserting the (mutated)
action into the table selected by its kind. -/
def buildActions (nameToKey : List (String × String)) (installNum downloadNum : Nat) :
    List SnapAction → Except String actionsBuild
  | [] => .ok ⟨[], [], [], [], []⟩
  | a :: rest =>
    match buildActionEntry nameToKey installNum downloadNum a with
    | .error e => .error e
    | .ok (aJSON, a1, instanceKey, installNum1, downloadNum1) =>
      match buildActions nameToKey installNum1 downloadNum1 rest with
      | .error e => .error e
      | .ok ab =>
        .ok { installs := (if a.action = "install" then [(instanceKey, a1)] else []) ++ ab.installs
              downloads :=
                (if a.action = "download" then [(instanceKey, a1)] else []) ++ ab.downloads
              refreshes :=
                (if a.action ≠ "install" ∧ a.action ≠ "download" then [(instanceKey, a1)] else [])
                  ++ ab.refreshes
              actionJSONs := aJSON :: ab.actionJSONs
              mutActions := a1 :: ab.mutActions }

/-- Everything `snapAction` keeps from request building for correlation. -/
structure builtRequest where
  curSnaps : List (String × CurrentSnap)
  instanceNameToKey : List (String × String)
  curSnapJSONs : List currentSnapV2JSON
  installs : List (String × SnapAction)
  downloads : List (String × SnapAction)
  refreshes : List (String × SnapAction)
  actionJSONs : List snapActionJSON
  mutActions : List SnapAction

/-- The request-building phase of `snapAction`. -/
def buildRequest (currentSnaps : List CurrentSnap) (actions : List SnapAction) (salt : String) :
    Except String builtRequest :=
  match buildContext salt currentSnaps with
  | .error e => .error e
  | .ok (m, n2k, js) =>
    match buildActions n2k 0 0 actions with
    | .error e => .error e
    | .ok ab =>
      .ok { curSnaps := m
            instanceNameToKey := n2k
            curSnapJSONs := js
            installs := ab.installs
            downloads := ab.downloads
            refreshes := ab.refreshes
            actionJSONs := ab.actionJSONs
            mutActions := ab.mutActions }

/-! ## Wire response, error taxonomy, correlation and aggregation -/

/-- `snapRelease` from the source. -/
structure snapRelease where
  architecture : String
  channel : String
deriving DecidableEq

/-- The contents the claims need from the wire `storeSnap`; the rest of the
snap metadata is consumed only by the external decoder `infoFromStoreSnap`,
which is a parameter below. -/
structure storeSnap where
  name : String
  revision : Int
deriving DecidableEq

/-- The fields of `snap.Info` that `snapAction` touches (channel and
instance key are overwritten by the correlator; the rest comes from the
external decoder). -/
structure snapInfo where
  name : String
  snapID : String
  channel : String
  instanceKey : String
  revision : Int
deriving DecidableEq

/-- `SnapActionResult` from the source. -/
structure SnapActionResult where
  info : snapInfo
  redirectChannel : String
deriving DecidableEq

/-- The embedded error object of a wire result. -/
structure wireError where
  code : String
  message : String
  releases : List snapRelease
deriving DecidableEq

/-- `snapActionResult` from the source (one entry of `results`). -/
structure snapActionResult where
  result : String
  instanceKey : String
  snapID : String
  name : String
  snap : storeSnap
  effectiveChannel : String
  redirectChannel : String
  error : wireError
deriving DecidableEq

/-- One entry of the wire `error-list`. -/
structure errorListEntry where
  code : String
  message : String
deriving DecidableEq

/-- `snapActionResultList` from the source (the parsed response envelope). -/
structure snapActionResultList where
  results : List snapActionResult
  errorList : List errorListEntry

/-- Modelled from the spec: the typed store error taxonomy (§4.5, store
errors file not under src/).  `ErrNoUpdateAvailable` and the two
auth-refresh sentinels are distinguished values; every translated wire error
keeps the action kind, channel, code, message and releases it was built
from. -/
inductive StoreError where
  | noUpdateAvailable
  | userAuthNeedsRefresh
  | deviceAuthNeedsRefresh
  | translated (action channel code message : String) (releases : List snapRelease)
deriving DecidableEq

/-- Modelled from the spec: `translateSnapActionError` (not under src/)
produces a typed error enriched with the action context; claims depend only
on which arguments reach it, so it is modelled as capturing them. -/
def translateSnapActionError (action channel code message : String)
    (releases : List snapRelease) : StoreError :=
  .translated action channel code message releases

/-- `SnapActionError` from the source: four error buckets plus the
`NoResults` flag; a `none` bucket is a Go nil map. -/
structure SnapActionError where
  noResults : Bool := false
  refresh : Option (List (String × StoreError)) := none
  install : Option (List (String × StoreError)) := none
  download : Option (List (String × StoreError)) := none
  other : List StoreError := []
deriving DecidableEq

/-- `findRev` from the source. -/
def findRev (needle : Revision) : List Revision → Bool
  | [] => false
  | r :: rest => if needle = r then true else findRev needle rest

/-- The mutable correlation state of the results walk: the four error
buckets and the successes collected so far. -/
structure corrState where
  refreshErrors : List (String × StoreError)
  installErrors : List (String × StoreError)
  downloadErrors : List (String × StoreError)
  otherErrors : List StoreError
  sars : List SnapActionResult
deriving DecidableEq

def corrState.init : corrState := ⟨[], [], [], [], []⟩

/-- Append a success entry unless the kind/instance-name check fails
(`snapAction`, tail of the results loop). -/
def appendSAR (st : corrState) (res : snapActionResult) (info : snapInfo)
    (instanceName : String) : Except String corrState :=
  if res.result ≠ "download" ∧ instanceName = "" then
    .error ("unexpected invalid install/refresh API result: unexpected instance-key " ++
      quoteStr res.instanceKey)
  else
    let instanceKey := (splitInstanceName instanceName).2
    .ok { st with
      sars := st.sars ++ [{ info := { info with instanceKey := instanceKey },
                            redirectChannel := res.redirectChannel }] }

/-- One iteration of the results loop of `snapAction`: classify the result
as a per-action error, an orphan error, a suppressed no-update refresh, a
success, or a fatal invalid response.  `dec` is the external pure decoder
`infoFromStoreSnap`. -/
def processOneResult (dec : storeSnap → Except String snapInfo) (bst : builtRequest)
    (st : corrState) (res : snapActionResult) : Except String corrState :=
  if res.result = "error" then
    match mapLookup bst.installs res.instanceKey with
    | some a =>
      if res.name ≠ "" then
        .ok { st with
          installErrors := st.installErrors ++
            [(a.instanceName,
              translateSnapActionError "install" a.channel res.error.code res.error.message
                res.error.releases)] }
      else
        .ok { st with
          otherErrors := st.otherErrors ++
            [translateSnapActionError "" "" res.error.code res.error.message []] }
    | none =>
      match mapLookup bst.downloads res.instanceKey with
      | some a =>
        if res.name ≠ "" then
          .ok { st with
            downloadErrors := st.downloadErrors ++
              [(res.name,
                translateSnapActionError "download" a.channel res.error.code res.error.message
                  res.error.releases)] }
        else
          .ok { st with
            otherErrors := st.otherErrors ++
              [translateSnapActionError "" "" res.error.code res.error.message []] }
      | none =>
        match mapLookup bst.curSnaps res.instanceKey with
        | some cur =>
          match mapLookup bst.refreshes res.instanceKey with
          | none =>
            .ok { st with
              otherErrors := st.otherErrors ++
                [translateSnapActionError "" "" res.error.code
                  ("snap " ++ quoteStr cur.instanceName ++ ": " ++ res.error.message) []] }
          | some a =>
            let channel :=
              if a.channel = "" ∧ a.revision.unset then cur.trackingChannel else a.channel
            .ok { st with
              refreshErrors := st.refreshErrors ++
                [(cur.instanceName,
                  translateSnapActionError "refresh" channel res.error.code res.error.message
                    res.error.releases)] }
        | none =>
          .ok { st with
            otherErrors := st.otherErrors ++
              [translateSnapActionError "" "" res.error.code res.error.message []] }
  else
    match dec res.snap with
    | .error e => .error ("unexpected invalid install/refresh API result: " ++ e)
    | .ok info0 =>
      let info := { info0 with channel := res.effectiveChannel }
      if res.result = "refresh" then
        match mapLookup bst.curSnaps res.instanceKey with
        | none => .error "unexpected invalid install/refresh API result: unexpected refresh"
        | some cur =>
          let rrev := R res.snap.revision
          if rrev = cur.revision ∨ findRev rrev cur.block then
            .ok { st with
              refreshErrors := st.refreshErrors ++
                [(cur.instanceName, StoreError.noUpdateAvailable)] }
          else appendSAR st res info cur.instanceName
      else if res.result = "install" then
        appendSAR st res info
          (match mapLookup bst.installs res.instanceKey with
           | some action => action.instanceName
           | none => "")
      else appendSAR st res info ""

/-- The results loop of `snapAction`. -/
def processResults (dec : storeSnap → Except String snapInfo) (bst : builtRequest)
    (st : corrState) : List snapActionResult → Except String corrState
  | [] => .ok st
  | res :: rest =>
    match processOneResult dec bst st res with
    | .error e => .error e
    | .ok st1 => processResults dec bst st1 rest

/-- The aggregate error assembly at the end of `snapAction`: return a
composite `SnapActionError` exactly when some bucket is non-empty, the
results list was empty, or the other list is non-empty; empty maps are
normalized to nil. -/
def assembleOutcome (sars : List SnapActionResult)
    (refreshErrors installErrors downloadErrors : List (String × StoreError))
    (otherErrors : List StoreError) (resultsEmpty : Bool) :
    List SnapActionResult × Option SnapActionError :=
  if refreshErrors.length + installErrors.length + downloadErrors.length ≠ 0 ∨
      resultsEmpty = true ∨ otherErrors.length ≠ 0 then
    (sars,
      some { noResults := resultsEmpty
             refresh := if refreshErrors.length = 0 then none else some refreshErrors
             install := if installErrors.length = 0 then none else some installErrors
             download := if downloadErrors.length = 0 then none else some downloadErrors
             other := otherErrors })
  else (sars, none)

/-- The transported part of `snapAction`: build the request, correlate the
parsed response, append the error-list entries to the other bucket, and
assemble the outcome.  The transport itself and the JSON decoding are
external; `resp` is the parsed 200 envelope.  Also returns the mutated
actions slice the caller observes. -/
def snapActionCore (dec : storeSnap → Except String snapInfo)
    (currentSnaps : List CurrentSnap) (actions : List SnapAction) (salt : String)
    (resp : snapActionResultList) :
    Except String ((List SnapActionResult × Option SnapActionError) × List SnapAction) :=
  match buildRequest currentSnaps actions salt with
  | .error e => .error e
  | .ok bst =>
    match processResults dec bst corrState.init resp.results with
    | .error e => .error e
    | .ok st =>
      let otherErrors := st.otherErrors ++
        resp.errorList.map (fun e => translateSnapActionError "" "" e.code e.message [])
      .ok (assembleOutcome st.sars st.refreshErrors st.installErrors st.downloadErrors
        otherErrors resp.results.isEmpty, bst.mutActions)

/-! ## Auth-refresh retry loop -/

/-- The `(sars, err)` pair an inner `snapAction` call produces: the error is
either a plain Go error or a composite `SnapActionError`. -/
inductive goError where
  | fatal (msg : String)
  | actionErr (e : SnapActionError)
deriving DecidableEq

structure innerResult where
  sars : List SnapActionResult
  err : Option goError
deriving DecidableEq

/-- `authRefreshNeed` from the source. -/
structure authRefreshNeed where
  user : Bool
  device : Bool
deriving DecidableEq

/-- Modelled from the spec: `authRefreshNeed.needed` (not under src/) — the
refresh primitive is invoked when either axis needs a refresh. -/
def authRefreshNeed.needed (n : authRefreshNeed) : Bool := n.user || n.device

/-- One step of the sentinel scan of the retry loop. -/
def scanStep (n : authRefreshNeed) (e : StoreError) : authRefreshNeed :=
  match e with
  | .userAuthNeedsRefresh => { n with user := true }
  | .deviceAuthNeedsRefresh => { n with device := true }
  | _ => n

/-- The sentinel scan of the retry loop: walk the `Other` errors setting the
user/device axes for the two sentinels. -/
def scanRefreshNeed (other : List StoreError) : authRefreshNeed :=
  other.foldl scanStep ⟨false, false⟩

/-- The retry condition of `SnapAction`: the inner error is a
`SnapActionError`, its `Other` bucket is non-empty, and the sentinel scan
found a needed refresh (the `authRefreshes < 2` budget is handled by the
loop itself). -/
def shouldRetry (r : innerResult) : Bool :=
  match r.err with
  | some (.actionErr e) => !e.other.isEmpty && (scanRefreshNeed e.other).needed
  | _ => false

/-- The retry loop of `SnapAction`, parametrized by the outcomes of the
inner calls (`inner k acts` is the result and mutated actions of the k-th
call) and by the outcomes of the best-effort `refreshAuth` primitive, whose
errors are only logged.  `left` is the remaining auth-refresh budget
(`2 - authRefreshes`).  Returns the final result, the final actions slice,
the number of inner calls and the number of refresh attempts. -/
def snapActionLoop (inner : Nat → List SnapAction → innerResult × List SnapAction)
    (refreshOutcome : Nat → Option String) :
    Nat → Nat → List SnapAction → innerResult × List SnapAction × Nat × Nat
  | 0, k, acts =>
    let r := inner k acts
    (r.1, r.2, 1, 0)
  | left + 1, k, acts =>
    let r := inner k acts
    if shouldRetry r.1 then
      let _refreshErr := refreshOutcome k
      let rec1 := snapActionLoop inner refreshOutcome left (k + 1) r.2
      (rec1.1, rec1.2.1, rec1.2.2.1 + 1, rec1.2.2.2 + 1)
    else (r.1, r.2, 1, 0)

/-- `SnapAction` from the source: the empty-inputs guard followed by the
retry loop with a budget of two auth refreshes. -/
def SnapActionTop (inner : Nat → List SnapAction → innerResult × List SnapAction)
    (refreshOutcome : Nat → Option String) (currentSnaps : List CurrentSnap)
    (actions : List SnapAction) : innerResult × List SnapAction × Nat × Nat :=
  if currentSnaps.length = 0 ∧ actions.length = 0 then
    ({ sars := [], err := some (.actionErr { noResults := true }) }, actions, 0, 0)
  else snapActionLoop inner refreshOutcome 2 0 actions

/-! ## Helper lemmas on the serializers and the builders -/

theorem mapLookup_append_none {β : Type} (l₁ l₂ : List (String × β)) (k : String)
    (h : mapLookup l₂ k = none) : mapLookup (l₁ ++ l₂) k = mapLookup l₁ k := by
  rw [mapLookup_append, h]

theorem mapLookup_append_some {β : Type} (l₁ l₂ : List (String × β)) (k : String) (v : β)
    (h : mapLookup l₂ k = some v) : mapLookup (l₁ ++ l₂) k = some v := by
  rw [mapLookup_append, h]

theorem mapLookup_strField_ne (key value k : String) (h : key ≠ k) :
    mapLookup (strField key value) k = none := by
  unfold strField; split
  · rfl
  · simp [mapLookup, h]

theorem mapLookup_strField_eq (key value : String) :
    mapLookup (strField key value) key =
      (if value = "" then none else some (.str value)) := by
  unfold strField; split <;> simp [mapLookup]

theorem mapLookup_intField_ne (key : String) (value : Int) (k : String) (h : key ≠ k) :
    mapLookup (intField key value) k = none := by
  unfold intField; split
  · rfl
  · simp [mapLookup, h]

theorem mapLookup_boolField_ne (key : String) (value : Bool) (k : String) (h : key ≠ k) :
    mapLookup (boolField key value) k = none := by
  unfold boolField; split
  · simp [mapLookup, h]
  · rfl

theorem mapLookup_boolPtrField_ne (key : String) (value : Option Bool) (k : String)
    (h : key ≠ k) : mapLookup (boolPtrField key value) k = none := by
  unfold boolPtrField
  rcases value with _ | b
  · rfl
  · simp [mapLookup, h]

theorem mapLookup_boolPtrField_eq (key : String) (value : Option Bool) :
    mapLookup (boolPtrField key value) key =
      (match value with
       | none => none
       | some b => some (.bool b)) := by
  unfold boolPtrField
  rcases value with _ | b
  · rfl
  · simp [mapLookup]

theorem mapLookup_timePtrField_ne (key : String) (value : Option Int) (k : String)
    (h : key ≠ k) : mapLookup (timePtrField key value) k = none := by
  unfold timePtrField
  rcases value with _ | t
  · rfl
  · simp [mapLookup, h]

theorem mapLookup_epochIfaceField_ne (key : String) (value : Option (Option Epoch))
    (k : String) (h : key ≠ k) : mapLookup (epochIfaceField key value) k = none := by
  unfold epochIfaceField
  rcases value with _ | (_ | e)
  · rfl
  · simp [mapLookup, h]
  · simp [mapLookup, h]

theorem mapLookup_epochIfaceField_eq (key : String) (value : Option (Option Epoch)) :
    mapLookup (epochIfaceField key value) key =
      (match value with
       | none => none
       | some none => some Json.null
       | some (some e) => some (epochToJson e)) := by
  unfold epochIfaceField
  rcases value with _ | (_ | e)
  · rfl
  · simp [mapLookup]
  · simp [mapLookup]

theorem saj_lookup_instanceKey (aj : snapActionJSON) :
    mapLookup (snapActionJSONFields aj) "instance-key" = some (.str aj.instanceKey) := by
  unfold snapActionJSONFields
  rw [mapLookup_append_none _ _ _ (mapLookup_epochIfaceField_ne "epoch" aj.epoch _ (by decide)),
    mapLookup_append_none _ _ _
      (mapLookup_boolPtrField_ne "ignore-validation" aj.ignoreValidation _ (by decide)),
    mapLookup_append_none _ _ _ (mapLookup_strField_ne "cohort-key" aj.cohortKey _ (by decide)),
    mapLookup_append_none _ _ _ (mapLookup_intField_ne "revision" aj.revision _ (by decide)),
    mapLookup_append_none _ _ _ (mapLookup_strField_ne "channel" aj.channel _ (by decide)),
    mapLookup_append_none _ _ _ (mapLookup_strField_ne "snap-id" aj.snapID _ (by decide)),
    mapLookup_append_none _ _ _ (mapLookup_strField_ne "name" aj.name _ (by decide))]
  simp [mapLookup]

theorem saj_lookup_name (aj : snapActionJSON) :
    mapLookup (snapActionJSONFields aj) "name" =
      (if aj.name = "" then none else some (.str aj.name)) := by
  unfold snapActionJSONFields
  rw [mapLookup_append_none _ _ _ (mapLookup_epochIfaceField_ne "epoch" aj.epoch _ (by decide)),
    mapLookup_append_none _ _ _
      (mapLookup_boolPtrField_ne "ignore-validation" aj.ignoreValidation _ (by decide)),
    mapLookup_append_none _ _ _ (mapLookup_strField_ne "cohort-key" aj.cohortKey _ (by decide)),
    mapLookup_append_none _ _ _ (mapLookup_intField_ne "revision" aj.revision _ (by decide)),
    mapLookup_append_none _ _ _ (mapLookup_strField_ne "channel" aj.channel _ (by decide)),
    mapLookup_append_none _ _ _ (mapLookup_strField_ne "snap-id" aj.snapID _ (by decide))]
  by_cases h : aj.name = ""
  · rw [mapLookup_append_none _ _ _ (by rw [mapLookup_strField_eq, if_pos h])]
    simp [mapLookup, h]
  · rw [mapLookup_append_some _ _ _ _ (by rw [mapLookup_strField_eq, if_neg h])]
    simp [h]

theorem saj_lookup_channel (aj : snapActionJSON) :
    mapLookup (snapActionJSONFields aj) "channel" =
      (if aj.channel = "" then none else some (.str aj.channel)) := by
  unfold snapActionJSONFields
  rw [mapLookup_append_none _ _ _ (mapLookup_epochIfaceField_ne "epoch" aj.epoch _ (by decide)),
    mapLookup_append_none _ _ _
      (mapLookup_boolPtrField_ne "ignore-validation" aj.ignoreValidation _ (by decide)),
    mapLookup_append_none _ _ _ (mapLookup_strField_ne "cohort-key" aj.cohortKey _ (by decide)),
    mapLookup_append_none _ _ _ (mapLookup_intField_ne "revision" aj.revision _ (by decide))]
  by_cases h : aj.channel = ""
  · rw [mapLookup_append_none _ _ _ (by rw [mapLookup_strField_eq, if_pos h]),
      mapLookup_append_none _ _ _ (mapLookup_strField_ne "snap-id" aj.snapID _ (by decide)),
      mapLookup_append_none _ _ _ (mapLookup_strField_ne "name" aj.name _ (by decide))]
    simp [mapLookup, h]
  · rw [mapLookup_append_some _ _ _ _ (by rw [mapLookup_strField_eq, if_neg h])]
    simp [h]

theorem saj_lookup_ignoreValidation (aj : snapActionJSON) :
    mapLookup (snapActionJSONFields aj) "ignore-validation" =
      (match aj.ignoreValidation with
       | none => none
       | some b => some (.bool b)) := by
  unfold snapActionJSONFields
  rw [mapLookup_append_none _ _ _ (mapLookup_epochIfaceField_ne "epoch" aj.epoch _ (by decide))]
  rcases hiv : aj.ignoreValidation with _ | b
  · rw [mapLookup_append_none _ _ _ (by rw [mapLookup_boolPtrField_eq]),
      mapLookup_append_none _ _ _ (mapLookup_strField_ne "cohort-key" aj.cohortKey _ (by decide)),
      mapLookup_append_none _ _ _ (mapLookup_intField_ne "revision" aj.revision _ (by decide)),
      mapLookup_append_none _ _ _ (mapLookup_strField_ne "channel" aj.channel _ (by decide)),
      mapLookup_append_none _ _ _ (mapLookup_strField_ne "snap-id" aj.snapID _ (by decide)),
      mapLookup_append_none _ _ _ (mapLookup_strField_ne "name" aj.name _ (by decide))]
    simp [mapLookup]
  · rw [mapLookup_append_some _ _ _ _ (by rw [mapLookup_boolPtrField_eq])]

theorem saj_lookup_epoch (aj : snapActionJSON) :
    mapLookup (snapActionJSONFields aj) "epoch" =
      (match aj.epoch with
       | none => none
       | some none => some Json.null
       | some (some e) => some (epochToJson e)) := by
  unfold snapActionJSONFields
  rcases hep : aj.epoch with _ | (_ | e)
  · rw [mapLookup_append_none _ _ _ (by rw [mapLookup_epochIfaceField_eq]),
      mapLookup_append_none _ _ _
        (mapLookup_boolPtrField_ne "ignore-validation" aj.ignoreValidation _ (by decide)),
      mapLookup_append_none _ _ _ (mapLookup_strField_ne "cohort-key" aj.cohortKey _ (by decide)),
      mapLookup_append_none _ _ _ (mapLookup_intField_ne "revision" aj.revision _ (by decide)),
      mapLookup_append_none _ _ _ (mapLookup_strField_ne "channel" aj.channel _ (by decide)),
      mapLookup_append_none _ _ _ (mapLookup_strField_ne "snap-id" aj.snapID _ (by decide)),
      mapLookup_append_none _ _ _ (mapLookup_strField_ne "name" aj.name _ (by decide))]
    simp [mapLookup]
  · rw [mapLookup_append_some _ _ _ _ (by rw [mapLookup_epochIfaceField_eq])]
  · rw [mapLookup_append_some _ _ _ _ (by rw [mapLookup_epochIfaceField_eq])]

theorem ctx_lookup_instanceKey (c : currentSnapV2JSON) :
    mapLookup (currentSnapV2JSONFields c) "instance-key" = some (.str c.instanceKey) := by
  unfold currentSnapV2JSONFields
  rw [mapLookup_append_none _ _ _ (mapLookup_strField_ne "cohort-key" c.cohortKey _ (by decide)),
    mapLookup_append_none _ _ _
      (mapLookup_boolField_ne "ignore-validation" c.ignoreValidation _ (by decide)),
    mapLookup_append_none _ _ _
      (mapLookup_timePtrField_ne "refreshed-date" c.refreshedDate _ (by decide))]
  simp [mapLookup]

theorem isValidAction_cases (s : String) (h : isValidAction s = true) :
    s = "download" ∨ s = "install" ∨ s = "refresh" := by
  by_cases h1 : s = "download"
  · exact .inl h1
  · by_cases h2 : s = "install"
    · exact .inr (.inl h2)
    · by_cases h3 : s = "refresh"
      · exact .inr (.inr h3)
      · simp [isValidAction, h1, h2, h3] at h

/-- The tri-state `ignore-validation` value computed for an action. -/
def ivTriState (a : SnapAction) : Option Bool :=
  if a.flags &&& SnapActionIgnoreValidation ≠ 0 then some true
  else if a.flags &&& SnapActionEnforceValidation ≠ 0 then some false
  else none

theorem buildActionEntry_invalid (nameToKey : List (String × String)) (iN dN : Nat)
    (a : SnapAction) (hv : isValidAction a.action = false) :
    buildActionEntry nameToKey iN dN a =
      .error ("internal error: unsupported action " ++ quoteStr a.action) := by
  simp [buildActionEntry, hv]

theorem buildActionEntry_noName (nameToKey : List (String × String)) (iN dN : Nat)
    (a : SnapAction) (hv : isValidAction a.action = true) (hn : a.instanceName = "") :
    buildActionEntry nameToKey iN dN a = .error "internal error: action without instance name" := by
  simp [buildActionEntry, hv, hn]

theorem buildActionEntry_install (nameToKey : List (String × String)) (iN dN : Nat)
    (a : SnapAction) (hn : a.instanceName ≠ "") (hi : a.action = "install") :
    buildActionEntry nameToKey iN dN a = .ok
      ({ action := a.action
         instanceKey := "install-" ++ toString (iN + 1)
         name := instanceSnap a.instanceName
         snapID := a.snapID
         channel := a.channel
         revision := a.revision.N
         cohortKey := a.cohortKey
         ignoreValidation := ivTriState a
         epoch := some (if a.epoch.isZero then none else some a.epoch) },
       (if a.revision.unset then a else { a with channel := "" }),
       "install-" ++ toString (iN + 1), iN + 1, dN) := by
  simp [buildActionEntry, isValidAction, hn, hi, ivTriState]

theorem buildActionEntry_download_suffix (nameToKey : List (String × String)) (iN dN : Nat)
    (a : SnapAction) (hn : a.instanceName ≠ "") (hd : a.action = "download")
    (hsfx : (splitInstanceName a.instanceName).2 ≠ "") :
    buildActionEntry nameToKey iN dN a =
      .error ("internal error: unsupported download with instance name " ++
        quoteStr a.instanceName) := by
  simp [buildActionEntry, isValidAction, hn, hd, hsfx]

theorem buildActionEntry_download (nameToKey : List (String × String)) (iN dN : Nat)
    (a : SnapAction) (hn : a.instanceName ≠ "") (hd : a.action = "download")
    (hsfx : (splitInstanceName a.instanceName).2 = "") :
    buildActionEntry nameToKey iN dN a = .ok
      ({ action := a.action
         instanceKey := "download-" ++ toString (dN + 1)
         name := instanceSnap a.instanceName
         snapID := a.snapID
         channel := a.channel
         revision := a.revision.N
         cohortKey := a.cohortKey
         ignoreValidation := ivTriState a
         epoch := some (if a.epoch.isZero then none else some a.epoch) },
       (if a.revision.unset then a else { a with channel := "" }),
       "download-" ++ toString (dN + 1), iN, dN + 1) := by
  simp [buildActionEntry, isValidAction, hn, hd, hsfx, ivTriState]

theorem buildActionEntry_refresh (nameToKey : List (String × String)) (iN dN : Nat)
    (a : SnapAction) (hn : a.instanceName ≠ "") (hr : a.action = "refresh") :
    buildActionEntry nameToKey iN dN a = .ok
      ({ action := a.action
         instanceKey := (mapLookup nameToKey a.instanceName).getD ""
         name := ""
         snapID := a.snapID
         channel := a.channel
         revision := a.revision.N
         cohortKey := a.cohortKey
         ignoreValidation := ivTriState a
         epoch := none },
       (if a.revision.unset then a else { a with channel := "" }),
       (mapLookup nameToKey a.instanceName).getD "", iN, dN) := by
  simp [buildActionEntry, isValidAction, hn, hr, ivTriState]

/-- Inversion of a successful `buildActionEntry`: the validations passed and
every component of the output is determined by the input. -/
theorem buildActionEntry_inv (nameToKey : List (String × String)) (installNum downloadNum : Nat)
    (a : SnapAction) (aj : snapActionJSON) (a1 : SnapAction) (key : String) (iN1 dN1 : Nat)
    (h : buildActionEntry nameToKey installNum downloadNum a = .ok (aj, a1, key, iN1, dN1)) :
    isValidAction a.action = true ∧ a.instanceName ≠ "" ∧
    a1 = (if a.revision.unset then a else { a with channel := "" }) ∧
    aj = { action := a.action
           instanceKey := key
           name := if a.action = "refresh" then "" else instanceSnap a.instanceName
           snapID := a.snapID
           channel := a.channel
           revision := a.revision.N
           cohortKey := a.cohortKey
           ignoreValidation := ivTriState a
           epoch :=
             if a.action = "refresh" then none
             else some (if a.epoch.isZero then none else some a.epoch) } ∧
    (a.action = "install" →
      key = "install-" ++ toString (installNum + 1) ∧ iN1 = installNum + 1 ∧ dN1 = downloadNum) ∧
    (a.action = "download" →
      (splitInstanceName a.instanceName).2 = "" ∧
      key = "download-" ++ toString (downloadNum + 1) ∧ iN1 = installNum ∧ dN1 = downloadNum + 1) ∧
    (a.action = "refresh" →
      key = (mapLookup nameToKey a.instanceName).getD "" ∧
      iN1 = installNum ∧ dN1 = downloadNum) := by
  by_cases hv : isValidAction a.action = true
  · by_cases hn : a.instanceName = ""
    · rw [buildActionEntry_noName nameToKey installNum downloadNum a hv hn] at h
      simp at h
    · rcases isValidAction_cases a.action hv with hd | hi | hr
      · by_cases hsfx : (splitInstanceName a.instanceName).2 = ""
        · rw [buildActionEntry_download nameToKey installNum downloadNum a hn hd hsfx] at h
          simp only [Except.ok.injEq, Prod.mk.injEq] at h
          obtain ⟨haj, ha1, hkey, hiN, hdN⟩ := h
          refine ⟨hv, hn, ha1.symm, ?_, ?_, ?_, ?_⟩
          · rw [← haj, hd, hkey]; simp
          · intro hi'; rw [hi'] at hd; simp at hd
          · intro _; exact ⟨hsfx, hkey.symm, hiN.symm, hdN.symm⟩
          · intro hr'; rw [hr'] at hd; simp at hd
        · rw [buildActionEntry_download_suffix nameToKey installNum downloadNum a hn hd hsfx] at h
          simp at h
      · rw [buildActionEntry_install nameToKey installNum downloadNum a hn hi] at h
        simp only [Except.ok.injEq, Prod.mk.injEq] at h
        obtain ⟨haj, ha1, hkey, hiN, hdN⟩ := h
        refine ⟨hv, hn, ha1.symm, ?_, ?_, ?_, ?_⟩
        · rw [← haj, hi, hkey]; simp
        · intro _; exact ⟨hkey.symm, hiN.symm, hdN.symm⟩
        · intro hd'; rw [hd'] at hi; simp at hi
        · intro hr'; rw [hr'] at hi; simp at hi
      · rw [buildActionEntry_refresh nameToKey installNum downloadNum a hn hr] at h
        simp only [Except.ok.injEq, Prod.mk.injEq] at h
        obtain ⟨haj, ha1, hkey, hiN, hdN⟩ := h
        refine ⟨hv, hn, ha1.symm, ?_, ?_, ?_, ?_⟩
        · rw [← haj, hr, hkey]; simp
        · intro hi'; rw [hi'] at hr; simp at hr
        · intro hd'; rw [hd'] at hr; simp at hr
        · intro _; exact ⟨hkey.symm, hiN.symm, hdN.symm⟩
  · have hv' : isValidAction a.action = false := by
      revert hv; cases isValidAction a.action <;> simp
    rw [buildActionEntry_invalid nameToKey installNum downloadNum a hv'] at h
    simp at h

/-! ## Claims C1, C2, C3, C9 -/

/-- Claim C1 counterexample: an install action pinned to revision 7 with
caller-supplied channel "edge" serializes with `"channel": "edge"` present,
so a set revision does NOT make the serialized channel empty/omitted. -/
theorem claimC1_counterexample :
    (Revision.mk 7).unset = false ∧
    (buildActionEntry [] 0 0
        { action := "install", instanceName := "foo", snapID := "sid", channel := "edge",
          revision := ⟨7⟩, cohortKey := "", flags := 0, epoch := ⟨[0], [0]⟩ }).map
      (fun t => mapLookup (snapActionJSONFields t.1) "channel") =
      Except.ok (some (.str "edge")) := by
  exact ⟨rfl, rfl⟩

/-- Claim C1 (amended): when an action's revision is set, the caller's
`Channel` field is cleared only AFTER the JSON entry is built, so the entry
keeps and serializes the caller-supplied channel (omitted only when that was
already empty), while the mutated action object's channel is empty. -/
theorem claimC1_channel_after_build (nameToKey : List (String × String)) (iN dN : Nat)
    (a : SnapAction) (aj : snapActionJSON) (a1 : SnapAction) (key : String) (iN1 dN1 : Nat)
    (hok : buildActionEntry nameToKey iN dN a = .ok (aj, a1, key, iN1, dN1))
    (hrev : a.revision.unset = false) :
    aj.channel = a.channel ∧
    mapLookup (snapActionJSONFields aj) "channel" =
      (if a.channel = "" then none else some (.str a.channel)) ∧
    a1.channel = "" := by
  obtain ⟨_, _, ha1, haj, _⟩ := buildActionEntry_inv _ _ _ _ _ _ _ _ _ hok
  have hc : aj.channel = a.channel := by rw [haj]
  refine ⟨hc, ?_, ?_⟩
  · rw [saj_lookup_channel, hc]
  · rw [ha1]; simp [hrev]

/-- Witness for the amended claim C1 at a concrete revision-pinned action. -/
theorem claimC1_witness :
    ({ action := "install", instanceKey := "install-1", name := "foo", snapID := "sid",
       channel := "edge", revision := 7, cohortKey := "", ignoreValidation := none,
       epoch := some none } : snapActionJSON).channel = "edge" ∧
    mapLookup (snapActionJSONFields
      { action := "install", instanceKey := "install-1", name := "foo", snapID := "sid",
        channel := "edge", revision := 7, cohortKey := "", ignoreValidation := none,
        epoch := some none }) "channel" = some (.str "edge") ∧
    ({ action := "install", instanceName := "foo", snapID := "sid", channel := "",
       revision := ⟨7⟩, cohortKey := "", flags := 0, epoch := ⟨[0], [0]⟩ } : SnapAction).channel
      = "" := by
  have h := claimC1_channel_after_build [] 0 0
    { action := "install", instanceName := "foo", snapID := "sid", channel := "edge",
      revision := ⟨7⟩, cohortKey := "", flags := 0, epoch := ⟨[0], [0]⟩ }
    { action := "install", instanceKey := "install-1", name := "foo", snapID := "sid",
      channel := "edge", revision := 7, cohortKey := "", ignoreValidation := none,
      epoch := some none }
    { action := "install", instanceName := "foo", snapID := "sid", channel := "",
      revision := ⟨7⟩, cohortKey := "", flags := 0, epoch := ⟨[0], [0]⟩ }
    "install-1" 1 0 rfl rfl
  simpa using h

/-- Claim C2 counterexample: an install action with instance name `_foo`
(non-empty, so it passes validation) serializes WITHOUT a `name` key — the
snap-name component is empty and `omitempty` drops it — while `epoch` is
present as null. -/
theorem claimC2_counterexample :
    (buildActionEntry [] 0 0
        { action := "install", instanceName := "_foo", snapID := "", channel := "",
          revision := ⟨0⟩, cohortKey := "", flags := 0, epoch := ⟨[0], [0]⟩ }).map
      (fun t => (mapLookup (snapActionJSONFields t.1) "name",
                 mapLookup (snapActionJSONFields t.1) "epoch")) =
      Except.ok (none, some Json.null) := by
  exact rfl

/-- Claim C2 (amended): for `install`/`download` actions the `epoch` key is
always present (null for a zero epoch, the epoch object otherwise), and the
entry's name is the snap-name component of the instance name, whose key is
present exactly when that component is non-empty; for `refresh` actions both
the `epoch` and the `name` keys are absent. -/
theorem claimC2_epoch_name_presence (nameToKey : List (String × String)) (iN dN : Nat)
    (a : SnapAction) (aj : snapActionJSON) (a1 : SnapAction) (key : String) (iN1 dN1 : Nat)
    (hok : buildActionEntry nameToKey iN dN a = .ok (aj, a1, key, iN1, dN1)) :
    ((a.action = "install" ∨ a.action = "download") →
      mapLookup (snapActionJSONFields aj) "epoch" =
        some (if a.epoch.isZero then Json.null else epochToJson a.epoch) ∧
      aj.name = instanceSnap a.instanceName ∧
      (instanceSnap a.instanceName ≠ "" →
        mapLookup (snapActionJSONFields aj) "name" =
          some (.str (instanceSnap a.instanceName)))) ∧
    (a.action = "refresh" →
      mapLookup (snapActionJSONFields aj) "epoch" = none ∧
      mapLookup (snapActionJSONFields aj) "name" = none) := by
  obtain ⟨_, _, _, haj, _⟩ := buildActionEntry_inv _ _ _ _ _ _ _ _ _ hok
  constructor
  · intro hio
    have hnr : ¬ a.action = "refresh" := by rcases hio with h | h <;> simp [h]
    have hepoch : aj.epoch = some (if a.epoch.isZero then none else some a.epoch) := by
      rw [haj]; simp [hnr]
    have hname : aj.name = instanceSnap a.instanceName := by rw [haj]; simp [hnr]
    refine ⟨?_, hname, ?_⟩
    · rw [saj_lookup_epoch, hepoch]
      by_cases hz : a.epoch.isZero <;> simp [hz]
    · intro hne
      rw [saj_lookup_name, hname, if_neg hne]
  · intro hr
    have hepoch : aj.epoch = none := by rw [haj]; simp [hr]
    have hname : aj.name = "" := by rw [haj]; simp [hr]
    exact ⟨by rw [saj_lookup_epoch, hepoch],
      by rw [saj_lookup_name, hname]; simp⟩

/-- Witness for the amended claim C2 at a concrete install action. -/
theorem claimC2_witness :
    mapLookup (snapActionJSONFields
      { action := "install", instanceKey := "install-1", name := "hello", snapID := "",
        channel := "", revision := 0, cohortKey := "", ignoreValidation := none,
        epoch := some none }) "epoch" = some Json.null ∧
    mapLookup (snapActionJSONFields
      { action := "install", instanceKey := "install-1", name := "hello", snapID := "",
        channel := "", revision := 0, cohortKey := "", ignoreValidation := none,
        epoch := some none }) "name" = some (.str "hello") := by
  have h := claimC2_epoch_name_presence [] 0 0
    { action := "install", instanceName := "hello", snapID := "", channel := "",
      revision := ⟨0⟩, cohortKey := "", flags := 0, epoch := ⟨[0], [0]⟩ }
    { action := "install", instanceKey := "install-1", name := "hello", snapID := "",
      channel := "", revision := 0, cohortKey := "", ignoreValidation := none,
      epoch := some none }
    { action := "install", instanceName := "hello", snapID := "", channel := "",
      revision := ⟨0⟩, cohortKey := "", flags := 0, epoch := ⟨[0], [0]⟩ }
    "install-1" 1 0 rfl
  obtain ⟨hei, hni, hne⟩ := h.1 (Or.inl rfl)
  have hz : (⟨[0], [0]⟩ : Epoch).isZero = true := rfl
  have hi : instanceSnap "hello" = "hello" := rfl
  refine ⟨by rw [hei, hz]; rfl, ?_⟩
  have := hne (by rw [hi]; decide)
  rw [this, hi]

/-- Claim C3: instance-key derivation is deterministic with exactly three
outcomes: no `_` suffix — the snap id unchanged; suffix with empty salt —
the internal missing-salt error (and then the whole request build fails);
otherwise `snapID ":" base64url-no-padding(SHA-256(snapID ‖ suffix ‖
salt))`. -/
theorem claimC3_instance_key_trichotomy :
    (∀ (cur : CurrentSnap) (salt : String),
      ((splitInstanceName cur.instanceName).2 = "" → genInstanceKey cur salt = .ok cur.snapID) ∧
      ((splitInstanceName cur.instanceName).2 ≠ "" → salt = "" →
        genInstanceKey cur salt = .error "internal error: request salt not provided") ∧
      ((splitInstanceName cur.instanceName).2 ≠ "" → salt ≠ "" →
        genInstanceKey cur salt = .ok (cur.snapID ++ ":" ++
          base64RawURLEncode (sha256 (strBytes cur.snapID ++
            strBytes (splitInstanceName cur.instanceName).2 ++ strBytes salt))))) ∧
    (∀ (currents : List CurrentSnap) (cur : CurrentSnap),
      cur ∈ currents → (splitInstanceName cur.instanceName).2 ≠ "" →
      ∃ msg, buildContext "" currents = .error msg) := by
  constructor
  · intro cur salt
    refine ⟨?_, ?_, ?_⟩
    · intro h1
      simp [genInstanceKey, h1]
    · intro h1 h2
      simp [genInstanceKey, h1, h2]
    · intro h1 h2
      simp [genInstanceKey, h1, h2]
  · intro currents
    induction currents with
    | nil =>
      intro cur hmem _
      simp at hmem
    | cons c rest ih =>
      intro cur hmem hsfx
      by_cases hval : c.snapID = "" ∨ c.instanceName = "" ∨ c.revision.unset
      · exact ⟨"internal error: invalid current snap information", by simp [buildContext, hval]⟩
      · rcases List.mem_cons.mp hmem with rfl | hmem'
        · have hk : genInstanceKey cur "" = .error "internal error: request salt not provided" := by
            simp [genInstanceKey, hsfx]
          exact ⟨"internal error: request salt not provided", by simp [buildContext, hval, hk]⟩
        · obtain ⟨msg, hmsg⟩ := ih cur hmem' hsfx
          cases hk : genInstanceKey c "" with
          | error e => exact ⟨e, by simp [buildContext, hval, hk]⟩
          | ok k => exact ⟨msg, by simp [buildContext, hval, hk, hmsg]⟩

/-- Witness for claim C3: a suffixed instance name with an empty salt fails
with the internal missing-salt error. -/
theorem claimC3_witness :
    genInstanceKey
      { instanceName := "pkg_dev", snapID := "sid", revision := ⟨1⟩, trackingChannel := "",
        refreshedDate := 0, ignoreValidation := false, block := [], epoch := ⟨[0], [0]⟩,
        cohortKey := "" } "" = .error "internal error: request salt not provided" :=
  (claimC3_instance_key_trichotomy.1
    { instanceName := "pkg_dev", snapID := "sid", revision := ⟨1⟩, trackingChannel := "",
      refreshedDate := 0, ignoreValidation := false, block := [], epoch := ⟨[0], [0]⟩,
      cohortKey := "" } "").2.1 (by decide) rfl

/-- Claim C9: both validation flags set does not fail the call — the ignore
flag wins and `ignore-validation` serializes as true; with only the enforce
flag it serializes as false; with neither flag the key is absent. -/
theorem claimC9_validation_tristate (nameToKey : List (String × String)) (iN dN : Nat)
    (a : SnapAction) (hv : isValidAction a.action = true) (hn : a.instanceName ≠ "")
    (hdl : a.action = "download" → (splitInstanceName a.instanceName).2 = "") :
    ∃ aj a1 key iN1 dN1,
      buildActionEntry nameToKey iN dN a = .ok (aj, a1, key, iN1, dN1) ∧
      aj.ignoreValidation = ivTriState a ∧
      mapLookup (snapActionJSONFields aj) "ignore-validation" =
        (match ivTriState a with
         | none => none
         | some b => some (.bool b)) ∧
      (a.flags &&& SnapActionIgnoreValidation ≠ 0 → ivTriState a = some true) ∧
      (a.flags &&& SnapActionIgnoreValidation = 0 → a.flags &&& SnapActionEnforceValidation ≠ 0 →
        ivTriState a = some false) ∧
      (a.flags &&& SnapActionIgnoreValidation = 0 → a.flags &&& SnapActionEnforceValidation = 0 →
        ivTriState a = none) := by
  have hcl : ∀ aj1 : snapActionJSON, aj1.ignoreValidation = ivTriState a →
      mapLookup (snapActionJSONFields aj1) "ignore-validation" =
        (match ivTriState a with
         | none => none
         | some b => some (.bool b)) := by
    intro aj1 hiv
    rw [saj_lookup_ignoreValidation, hiv]
  have htri :
      (a.flags &&& SnapActionIgnoreValidation ≠ 0 → ivTriState a = some true) ∧
      (a.flags &&& SnapActionIgnoreValidation = 0 → a.flags &&& SnapActionEnforceValidation ≠ 0 →
        ivTriState a = some false) ∧
      (a.flags &&& SnapActionIgnoreValidation = 0 → a.flags &&& SnapActionEnforceValidation = 0 →
        ivTriState a = none) := by
    refine ⟨?_, ?_, ?_⟩
    · intro h; simp [ivTriState, h]
    · intro h1 h2; simp [ivTriState, h1, h2]
    · intro h1 h2; simp [ivTriState, h1, h2]
  rcases isValidAction_cases a.action hv with hd | hi | hr
  · refine ⟨_, _, _, _, _, buildActionEntry_download nameToKey iN dN a hn hd (hdl hd), ?_, ?_,
      htri.1, htri.2.1, htri.2.2⟩
    · rfl
    · exact hcl _ rfl
  · refine ⟨_, _, _, _, _, buildActionEntry_install nameToKey iN dN a hn hi, ?_, ?_,
      htri.1, htri.2.1, htri.2.2⟩
    · rfl
    · exact hcl _ rfl
  · refine ⟨_, _, _, _, _, buildActionEntry_refresh nameToKey iN dN a hn hr, ?_, ?_,
      htri.1, htri.2.1, htri.2.2⟩
    · rfl
    · exact hcl _ rfl

/-- Witness for claim C9: with both flags set the entry builds and the
tri-state is true. -/
theorem claimC9_witness :
    (3 &&& SnapActionIgnoreValidation ≠ 0) ∧
    ivTriState
      { action := "install", instanceName := "hi", snapID := "", channel := "",
        revision := ⟨0⟩, cohortKey := "", flags := 3, epoch := ⟨[0], [0]⟩ } = some true := by
  have h := claimC9_validation_tristate [] 0 0
    { action := "install", instanceName := "hi", snapID := "", channel := "",
      revision := ⟨0⟩, cohortKey := "", flags := 3, epoch := ⟨[0], [0]⟩ }
    (by decide) (by decide) (fun hd => by simp at hd)
  obtain ⟨aj, a1, key, iN1, dN1, hok, hiv, hlk, h1, h2, h3⟩ := h
  exact ⟨by decide, h1 (by decide)⟩

/-! ## Claims C4 and C5 -/

theorem scan_foldl : ∀ (l : List StoreError) (n : authRefreshNeed),
    ((l.foldl scanStep n).user = true ↔
      (n.user = true ∨ StoreError.userAuthNeedsRefresh ∈ l)) ∧
    ((l.foldl scanStep n).device = true ↔
      (n.device = true ∨ StoreError.deviceAuthNeedsRefresh ∈ l))
  | [], n => by simp
  | e :: t, n => by
    have ih := scan_foldl t (scanStep n e)
    cases e <;> simp only [scanStep] at ih <;>
      simp [List.foldl_cons, scanStep, List.mem_cons, ih.1, ih.2, or_assoc]

theorem loop_stats_le (inner : Nat → List SnapAction → innerResult × List SnapAction)
    (ro : Nat → Option String) :
    ∀ (left k : Nat) (acts : List SnapAction),
      (snapActionLoop inner ro left k acts).2.2.1 ≤ left + 1 ∧
      (snapActionLoop inner ro left k acts).2.2.2 ≤ left
  | 0, k, acts => by simp [snapActionLoop]
  | left + 1, k, acts => by
    have ih := loop_stats_le inner ro left (k + 1) (inner k acts).2
    by_cases h : shouldRetry (inner k acts).1 = true
    · simp only [snapActionLoop, h, if_pos]
      exact ⟨by omega, by omega⟩
    · simp only [snapActionLoop, h, if_neg, Bool.not_eq_true]
      exact ⟨by omega, by omega⟩

/-- Claim C4: with empty current snaps and actions, `SnapAction` returns
`(nil, SnapActionError{NoResults:true})` with zero transport calls; after a
transported call the composite error is returned (alongside the partial
results) exactly when some per-kind bucket is non-empty, the results list is
empty, or the other list is non-empty; `NoResults` is true exactly when the
results list was empty, and empty buckets are normalized to nil. -/
theorem claimC4_outcome_assembly :
    (∀ (inner : Nat → List SnapAction → innerResult × List SnapAction)
        (ro : Nat → Option String),
      SnapActionTop inner ro [] [] =
        ({ sars := [], err := some (.actionErr
            { noResults := true, refresh := none, install := none, download := none,
              other := [] }) }, [], 0, 0)) ∧
    (∀ (sars : List SnapActionResult) (re ie de : List (String × StoreError))
        (oe : List StoreError) (resultsEmpty : Bool),
      (assembleOutcome sars re ie de oe resultsEmpty).1 = sars ∧
      ((assembleOutcome sars re ie de oe resultsEmpty).2 = none ↔
        (re = [] ∧ ie = [] ∧ de = [] ∧ resultsEmpty = false ∧ oe = [])) ∧
      (∀ e, (assembleOutcome sars re ie de oe resultsEmpty).2 = some e →
        e.noResults = resultsEmpty ∧
        e.refresh = (if re.length = 0 then none else some re) ∧
        e.install = (if ie.length = 0 then none else some ie) ∧
        e.download = (if de.length = 0 then none else some de) ∧
        e.other = oe)) ∧
    (∀ (dec : storeSnap → Except String snapInfo) (currents : List CurrentSnap)
        (acts : List SnapAction) (salt : String) (resp : snapActionResultList) out,
      snapActionCore dec currents acts salt resp = .ok out →
      ∃ bst st, buildRequest currents acts salt = .ok bst ∧
        processResults dec bst corrState.init resp.results = .ok st ∧
        out = (assembleOutcome st.sars st.refreshErrors st.installErrors st.downloadErrors
          (st.otherErrors ++ resp.errorList.map
            (fun e => translateSnapActionError "" "" e.code e.message []))
          resp.results.isEmpty, bst.mutActions)) := by
  refine ⟨?_, ?_, ?_⟩
  · intro inner ro
    simp [SnapActionTop]
  · intro sars re ie de oe resultsEmpty
    by_cases h : (re.length + ie.length + de.length ≠ 0 ∨ resultsEmpty = true ∨ oe.length ≠ 0)
    · refine ⟨?_, ?_, ?_⟩
      · unfold assembleOutcome; rw [if_pos h]
      · unfold assembleOutcome; rw [if_pos h]
        constructor
        · intro hc; simp at hc
        · rintro ⟨h1, h2, h3, h4, h5⟩
          exfalso
          subst h1; subst h2; subst h3; subst h5
          rcases h with h | h | h <;> simp_all
      · intro e he
        unfold assembleOutcome at he; rw [if_pos h] at he
        simp only [Option.some.injEq] at he
        rw [← he]
        exact ⟨rfl, rfl, rfl, rfl, rfl⟩
    · refine ⟨?_, ?_, ?_⟩
      · unfold assembleOutcome; rw [if_neg h]
      · unfold assembleOutcome; rw [if_neg h]
        push_neg at h
        obtain ⟨h1, h2, h3⟩ := h
        have hre : re = [] := List.length_eq_zero.mp (by omega)
        have hie : ie = [] := List.length_eq_zero.mp (by omega)
        have hde : de = [] := List.length_eq_zero.mp (by omega)
        have hoe : oe = [] := List.length_eq_zero.mp (by omega)
        have hres : resultsEmpty = false := by revert h2; cases resultsEmpty <;> simp
        simp [hre, hie, hde, hoe, hres]
      · intro e he
        unfold assembleOutcome at he; rw [if_neg h] at he
        simp at he
  · intro dec currents acts salt resp out
    unfold snapActionCore
    intro h
    split at h
    next e hb => simp at h
    next bst hb =>
      split at h
      next e hp => simp at h
      next st hp =>
        exact ⟨bst, st, hb, hp, (Except.ok.inj h).symm⟩

/-- Witness for claim C4: all-empty buckets with a non-empty results list
yield no composite error, and the empty-input call makes zero inner calls. -/
theorem claimC4_witness :
    (assembleOutcome [] [] [] [] [] false).2 = none ∧
    (SnapActionTop (fun _ acts => (⟨[], none⟩, acts)) (fun _ => none) [] []).2.2.1 = 0 := by
  have h := claimC4_outcome_assembly
  refine ⟨(h.2.1 [] [] [] [] [] false).2.1.mpr ⟨rfl, rfl, rfl, rfl, rfl⟩, ?_⟩
  rw [h.1 (fun _ acts => (⟨[], none⟩, acts)) (fun _ => none)]

/-- Claim C5: the auth-refresh loop terminates with at most 2 refresh
attempts and 3 inner calls; a retry happens only on a `SnapActionError`
whose `Other` bucket contains an auth-refresh sentinel while budget remains;
the refresh primitive's outcome never changes the result; otherwise the
inner result is returned unchanged. -/
theorem claimC5_retry_loop :
    (∀ (inner : Nat → List SnapAction → innerResult × List SnapAction)
        (ro : Nat → Option String) (currents : List CurrentSnap) (acts : List SnapAction),
      (SnapActionTop inner ro currents acts).2.2.1 ≤ 3 ∧
      (SnapActionTop inner ro currents acts).2.2.2 ≤ 2) ∧
    (∀ (inner : Nat → List SnapAction → innerResult × List SnapAction)
        (ro : Nat → Option String) (left k : Nat) (acts : List SnapAction),
      shouldRetry (inner k acts).1 = false →
      snapActionLoop inner ro left k acts = ((inner k acts).1, (inner k acts).2, 1, 0)) ∧
    (∀ (inner : Nat → List SnapAction → innerResult × List SnapAction)
        (ro : Nat → Option String) (k : Nat) (acts : List SnapAction),
      snapActionLoop inner ro 0 k acts = ((inner k acts).1, (inner k acts).2, 1, 0)) ∧
    (∀ (inner : Nat → List SnapAction → innerResult × List SnapAction)
        (ro : Nat → Option String) (left k : Nat) (acts : List SnapAction),
      shouldRetry (inner k acts).1 = true →
      snapActionLoop inner ro (left + 1) k acts =
        ((snapActionLoop inner ro left (k + 1) (inner k acts).2).1,
         (snapActionLoop inner ro left (k + 1) (inner k acts).2).2.1,
         (snapActionLoop inner ro left (k + 1) (inner k acts).2).2.2.1 + 1,
         (snapActionLoop inner ro left (k + 1) (inner k acts).2).2.2.2 + 1)) ∧
    (∀ (inner : Nat → List SnapAction → innerResult × List SnapAction)
        (ro ro' : Nat → Option String) (left k : Nat) (acts : List SnapAction),
      snapActionLoop inner ro left k acts = snapActionLoop inner ro' left k acts) ∧
    (∀ r : innerResult, shouldRetry r = true ↔
      ∃ e, r.err = some (.actionErr e) ∧ e.other ≠ [] ∧
        (StoreError.userAuthNeedsRefresh ∈ e.other ∨
         StoreError.deviceAuthNeedsRefresh ∈ e.other)) := by
  have hnoretry : ∀ (inner : Nat → List SnapAction → innerResult × List SnapAction)
      (ro : Nat → Option String) (left k : Nat) (acts : List SnapAction),
      shouldRetry (inner k acts).1 = false →
      snapActionLoop inner ro left k acts = ((inner k acts).1, (inner k acts).2, 1, 0) := by
    intro inner ro left k acts h
    cases left with
    | zero => simp [snapActionLoop]
    | succ n => simp [snapActionLoop, h]
  have hindep : ∀ (inner : Nat → List SnapAction → innerResult × List SnapAction)
      (ro ro' : Nat → Option String) (left k : Nat) (acts : List SnapAction),
      snapActionLoop inner ro left k acts = snapActionLoop inner ro' left k acts := by
    intro inner ro ro'
    intro left
    induction left with
    | zero => intro k acts; simp [snapActionLoop]
    | succ n ih =>
      intro k acts
      by_cases h : shouldRetry (inner k acts).1 = true
      · simp only [snapActionLoop, h, if_pos, ih (k + 1) (inner k acts).2]
      · rw [hnoretry inner ro n.succ k acts (by simpa using h),
          hnoretry inner ro' n.succ k acts (by simpa using h)]
  refine ⟨?_, hnoretry, ?_, ?_, hindep, ?_⟩
  · intro inner ro currents acts
    unfold SnapActionTop
    split
    · simp
    · have h := loop_stats_le inner ro 2 0 acts
      exact ⟨by omega, by omega⟩
  · intro inner ro k acts
    simp [snapActionLoop]
  · intro inner ro left k acts h
    simp [snapActionLoop, h]
  · intro r
    obtain ⟨sars, err⟩ := r
    rcases err with _ | ge
    · simp [shouldRetry]
    · rcases ge with msg | e
      · simp [shouldRetry]
      · simp only [shouldRetry, Bool.and_eq_true, Bool.not_eq_true', Option.some.injEq,
          goError.actionErr.injEq]
        constructor
        · rintro ⟨h1, h2⟩
          refine ⟨e, rfl, ?_, ?_⟩
          · intro hnil; rw [hnil] at h1; simp at h1
          · have hu := (scan_foldl e.other ⟨false, false⟩).1
            have hd := (scan_foldl e.other ⟨false, false⟩).2
            unfold authRefreshNeed.needed at h2
            rcases (Bool.or_eq_true _ _).mp h2 with h | h
            · exact .inl ((hu.mp (by simpa [scanRefreshNeed] using h)).resolve_left (by simp))
            · exact .inr ((hd.mp (by simpa [scanRefreshNeed] using h)).resolve_left (by simp))
        · rintro ⟨e', he, hne, hmem⟩
          subst he
          have hu := (scan_foldl e.other ⟨false, false⟩).1
          have hd := (scan_foldl e.other ⟨false, false⟩).2
          constructor
          · cases ho : e.other with
            | nil => exact absurd ho hne
            | cons x t => rfl
          · unfold authRefreshNeed.needed
            rcases hmem with h | h
            · have hx : (scanRefreshNeed e.other).user = true := by
                unfold scanRefreshNeed; exact hu.mpr (.inr h)
              simp [hx]
            · have hx : (scanRefreshNeed e.other).device = true := by
                unfold scanRefreshNeed; exact hd.mpr (.inr h)
              simp [hx]

/-- Witness for claim C5: an inner call that never signals a sentinel is
returned unchanged with one call and no refresh attempts. -/
theorem claimC5_witness :
    snapActionLoop (fun _ acts => (⟨[], none⟩, acts)) (fun _ => none) 2 0 [] =
      (⟨[], none⟩, [], 1, 0) :=
  claimC5_retry_loop.2.1 (fun _ acts => (⟨[], none⟩, acts)) (fun _ => none) 2 0 [] rfl

/-! ## Claims C6 and C7 -/

/-- Claim C6: a `refresh` result correlated to a current snap whose returned
revision equals the current revision or is blocked is suppressed — no
success entry, and the refresh bucket maps the snap's instance name to
`ErrNoUpdateAvailable`; a `refresh` result whose instance key matches no
current snap fails the whole call with the invalid-response error. -/
theorem claimC6_refresh_no_update (dec : storeSnap → Except String snapInfo)
    (bst : builtRequest) (st : corrState) (res : snapActionResult) (info : snapInfo)
    (hres : res.result = "refresh") (hdec : dec res.snap = .ok info) :
    (∀ cur, mapLookup bst.curSnaps res.instanceKey = some cur →
      (R res.snap.revision = cur.revision ∨ findRev (R res.snap.revision) cur.block = true) →
      processOneResult dec bst st res =
        .ok { st with refreshErrors := st.refreshErrors ++
          [(cur.instanceName, StoreError.noUpdateAvailable)] } ∧
      mapLookup (st.refreshErrors ++ [(cur.instanceName, StoreError.noUpdateAvailable)])
        cur.instanceName = some StoreError.noUpdateAvailable) ∧
    (mapLookup bst.curSnaps res.instanceKey = none →
      processOneResult dec bst st res =
        .error "unexpected invalid install/refresh API result: unexpected refresh" ∧
      ∀ rest, processResults dec bst st (res :: rest) =
        .error "unexpected invalid install/refresh API result: unexpected refresh") := by
  constructor
  · intro cur hcur hrev
    constructor
    · simp only [processOneResult, hres, hdec]
      rw [hcur]
      simp [hrev]
    · exact mapLookup_append_single_eq _ _ _
  · intro hcur
    have h1 : processOneResult dec bst st res =
        .error "unexpected invalid install/refresh API result: unexpected refresh" := by
      simp only [processOneResult, hres, hdec]
      rw [hcur]
      simp
    exact ⟨h1, fun rest => by simp [processResults, h1]⟩

/-- Witness for claim C6: a server refresh result equal to the current
revision is recorded as no-update, not as a success. -/
theorem claimC6_witness :
    processOneResult (fun s => .ok ⟨"", "", "", "", s.revision⟩)
      { curSnaps :=
          [("sid", { instanceName := "hello", snapID := "sid", revision := ⟨10⟩,
                     trackingChannel := "stable", refreshedDate := 0, ignoreValidation := false,
                     block := [], epoch := ⟨[0], [0]⟩, cohortKey := "" })]
        instanceNameToKey := [("hello", "sid")], curSnapJSONs := [], installs := [],
        downloads := [], refreshes := [], actionJSONs := [], mutActions := [] }
      corrState.init
      { result := "refresh", instanceKey := "sid", snapID := "sid", name := "",
        snap := ⟨"hello", 10⟩, effectiveChannel := "", redirectChannel := "",
        error := ⟨"", "", []⟩ } =
      .ok { corrState.init with
        refreshErrors := [("hello", StoreError.noUpdateAvailable)] } := by
  have h := (claimC6_refresh_no_update (fun s => .ok ⟨"", "", "", "", s.revision⟩)
    { curSnaps :=
        [("sid", { instanceName := "hello", snapID := "sid", revision := ⟨10⟩,
                   trackingChannel := "stable", refreshedDate := 0, ignoreValidation := false,
                   block := [], epoch := ⟨[0], [0]⟩, cohortKey := "" })]
      instanceNameToKey := [("hello", "sid")], curSnapJSONs := [], installs := [],
      downloads := [], refreshes := [], actionJSONs := [], mutActions := [] }
    corrState.init
    { result := "refresh", instanceKey := "sid", snapID := "sid", name := "",
      snap := ⟨"hello", 10⟩, effectiveChannel := "", redirectChannel := "",
      error := ⟨"", "", []⟩ }
    ⟨"", "", "", "", 10⟩ rfl rfl).1
    { instanceName := "hello", snapID := "sid", revision := ⟨10⟩,
      trackingChannel := "stable", refreshedDate := 0, ignoreValidation := false,
      block := [], epoch := ⟨[0], [0]⟩, cohortKey := "" } rfl (Or.inl rfl)
  exact h.1

/-- Claim C7: an `error` result is matched against the install table, then
the download table, then the current-snap/refresh tables; a match in the
install or download table is recorded in the per-name bucket only when the
result carries a non-empty name, an empty-name install/download match is
appended to Other, a result matching no table is appended to Other, and
after all results every error-list entry is appended to Other in order. -/
theorem claimC7_error_classification :
    (∀ (dec : storeSnap → Except String snapInfo) (bst : builtRequest) (st : corrState)
        (res : snapActionResult), res.result = "error" →
      (∀ a, mapLookup bst.installs res.instanceKey = some a → res.name ≠ "" →
        processOneResult dec bst st res = .ok { st with installErrors := st.installErrors ++
          [(a.instanceName, translateSnapActionError "install" a.channel res.error.code
            res.error.message res.error.releases)] }) ∧
      (∀ a, mapLookup bst.installs res.instanceKey = some a → res.name = "" →
        processOneResult dec bst st res = .ok { st with otherErrors := st.otherErrors ++
          [translateSnapActionError "" "" res.error.code res.error.message []] }) ∧
      (mapLookup bst.installs res.instanceKey = none →
        ∀ a, mapLookup bst.downloads res.instanceKey = some a → res.name ≠ "" →
        processOneResult dec bst st res = .ok { st with downloadErrors := st.downloadErrors ++
          [(res.name, translateSnapActionError "download" a.channel res.error.code
            res.error.message res.error.releases)] }) ∧
      (mapLookup bst.installs res.instanceKey = none →
        ∀ a, mapLookup bst.downloads res.instanceKey = some a → res.name = "" →
        processOneResult dec bst st res = .ok { st with otherErrors := st.otherErrors ++
          [translateSnapActionError "" "" res.error.code res.error.message []] }) ∧
      (mapLookup bst.installs res.instanceKey = none →
        mapLookup bst.downloads res.instanceKey = none →
        ∀ cur, mapLookup bst.curSnaps res.instanceKey = some cur →
        (∀ a, mapLookup bst.refreshes res.instanceKey = some a →
          processOneResult dec bst st res = .ok { st with refreshErrors := st.refreshErrors ++
            [(cur.instanceName, translateSnapActionError "refresh"
              (if a.channel = "" ∧ a.revision.unset then cur.trackingChannel else a.channel)
              res.error.code res.error.message res.error.releases)] }) ∧
        (mapLookup bst.refreshes res.instanceKey = none →
          processOneResult dec bst st res = .ok { st with otherErrors := st.otherErrors ++
            [translateSnapActionError "" "" res.error.code
              ("snap " ++ quoteStr cur.instanceName ++ ": " ++ res.error.message) []] })) ∧
      (mapLookup bst.installs res.instanceKey = none →
        mapLookup bst.downloads res.instanceKey = none →
        mapLookup bst.curSnaps res.instanceKey = none →
        processOneResult dec bst st res = .ok { st with otherErrors := st.otherErrors ++
          [translateSnapActionError "" "" res.error.code res.error.message []] })) ∧
    (∀ (dec : storeSnap → Except String snapInfo) (currents : List CurrentSnap)
        (acts : List SnapAction) (salt : String) (resp : snapActionResultList) out
        (e : SnapActionError),
      snapActionCore dec currents acts salt resp = .ok out → out.1.2 = some e →
      ∃ bst st, buildRequest currents acts salt = .ok bst ∧
        processResults dec bst corrState.init resp.results = .ok st ∧
        e.other = st.otherErrors ++ resp.errorList.map
          (fun er => translateSnapActionError "" "" er.code er.message [])) := by
  constructor
  · intro dec bst st res hres
    refine ⟨?_, ?_, ?_, ?_, ?_, ?_⟩
    · intro a ha hn
      simp only [processOneResult, hres]
      rw [ha]
      simp [hn]
    · intro a ha hn
      simp only [processOneResult, hres]
      rw [ha]
      simp [hn]
    · intro hi a ha hn
      simp only [processOneResult, hres]
      rw [hi, ha]
      simp [hn]
    · intro hi a ha hn
      simp only [processOneResult, hres]
      rw [hi, ha]
      simp [hn]
    · intro hi hd cur hcur
      constructor
      · intro a ha
        simp only [processOneResult, hres]
        rw [hi, hd, hcur, ha]
        simp
      · intro ha
        simp only [processOneResult, hres]
        rw [hi, hd, hcur, ha]
        simp
    · intro hi hd hcur
      simp only [processOneResult, hres]
      rw [hi, hd, hcur]
      simp
  · intro dec currents acts salt resp out e hok hsome
    revert hok
    unfold snapActionCore
    intro hok
    split at hok
    next e1 hb => simp at hok
    next bst hb =>
      split at hok
      next e1 hp => simp at hok
      next st hp =>
        refine ⟨bst, st, hb, hp, ?_⟩
        have hout := (Except.ok.inj hok).symm
        rw [hout] at hsome
        revert hsome
        unfold assembleOutcome
        split
        · intro hsome
          have he := Option.some.inj hsome
          rw [← he]
        · intro hsome
          simp at hsome

/-- Witness for claim C7: an error result whose instance key matches an
install action and which carries a name is bucketed under the action's
instance name. -/
theorem claimC7_witness :
    processOneResult (fun _ => .error "unused")
      { curSnaps := [], instanceNameToKey := [], curSnapJSONs := [],
        installs := [("install-1",
          { action := "install", instanceName := "hello", snapID := "", channel := "edge",
            revision := ⟨0⟩, cohortKey := "", flags := 0, epoch := ⟨[0], [0]⟩ })],
        downloads := [], refreshes := [], actionJSONs := [], mutActions := [] }
      corrState.init
      { result := "error", instanceKey := "install-1", snapID := "", name := "hello",
        snap := ⟨"", 0⟩, effectiveChannel := "", redirectChannel := "",
        error := ⟨"bad-code", "bad message", []⟩ } =
      .ok { corrState.init with
        installErrors := [("hello",
          translateSnapActionError "install" "edge" "bad-code" "bad message" [])] } := by
  have h := (claimC7_error_classification.1 (fun _ => .error "unused")
    { curSnaps := [], instanceNameToKey := [], curSnapJSONs := [],
      installs := [("install-1",
        { action := "install", instanceName := "hello", snapID := "", channel := "edge",
          revision := ⟨0⟩, cohortKey := "", flags := 0, epoch := ⟨[0], [0]⟩ })],
      downloads := [], refreshes := [], actionJSONs := [], mutActions := [] }
    corrState.init
    { result := "error", instanceKey := "install-1", snapID := "", name := "hello",
      snap := ⟨"", 0⟩, effectiveChannel := "", redirectChannel := "",
      error := ⟨"bad-code", "bad message", []⟩ } rfl).1
    { action := "install", instanceName := "hello", snapID := "", channel := "edge",
      revision := ⟨0⟩, cohortKey := "", flags := 0, epoch := ⟨[0], [0]⟩ } rfl (by decide)
  exact h

/-! ## Structural lemmas on the builders (for claims C8 and C10) -/

theorem buildContext_cons_inv (salt : String) (c : CurrentSnap) (rest : List CurrentSnap)
    (m : List (String × CurrentSnap)) (n2k : List (String × String))
    (js : List currentSnapV2JSON)
    (h : buildContext salt (c :: rest) = .ok (m, n2k, js)) :
    ∃ key m' n2k' js',
      genInstanceKey c salt = .ok key ∧
      buildContext salt rest = .ok (m', n2k', js') ∧
      m = (key, c) :: m' ∧ n2k = (c.instanceName, key) :: n2k' ∧
      js = mkCurrentSnapJSON c key :: js' := by
  unfold buildContext at h
  split at h
  next hval => simp at h
  next hval =>
    split at h
    next e hk => simp at h
    next key hk =>
      split at h
      next e hr => simp at h
      next m' n2k' js' hr =>
        simp only [Except.ok.injEq, Prod.mk.injEq] at h
        obtain ⟨hm, hn2k, hjs⟩ := h
        exact ⟨key, m', n2k', js', hk, hr, hm.symm, hn2k.symm, hjs.symm⟩

theorem buildContext_n2k_sound (salt : String) :
    ∀ (currents : List CurrentSnap) (m : List (String × CurrentSnap))
      (n2k : List (String × String)) (js : List currentSnapV2JSON) (name v : String),
      buildContext salt currents = .ok (m, n2k, js) →
      mapLookup n2k name = some v →
      ∃ c, c ∈ currents ∧ c.instanceName = name ∧ genInstanceKey c salt = .ok v
  | [], m, n2k, js, name, v => by
    intro h hlk
    simp only [buildContext, Except.ok.injEq, Prod.mk.injEq] at h
    obtain ⟨-, hn2k, -⟩ := h
    rw [← hn2k] at hlk
    simp [mapLookup] at hlk
  | c :: rest, m, n2k, js, name, v => by
    intro h hlk
    obtain ⟨key, m', n2k', js', hk, hr, -, hn2k, -⟩ := buildContext_cons_inv _ _ _ _ _ _ h
    subst hn2k
    revert hlk
    simp only [mapLookup]
    cases hrest : mapLookup n2k' name with
    | some v' =>
      intro hlk
      have hv : v' = v := Option.some.inj hlk
      obtain ⟨c', hc'mem, hc'name, hc'key⟩ :=
        buildContext_n2k_sound salt rest m' n2k' js' name v' hr hrest
      exact ⟨c', List.mem_cons_of_mem _ hc'mem, hc'name, hv ▸ hc'key⟩
    | none =>
      intro hlk
      by_cases hcn : c.instanceName = name
      · rw [if_pos hcn] at hlk
        obtain rfl : key = v := Option.some.inj hlk
        exact ⟨c, List.mem_cons_self _ _, hcn, hk⟩
      · rw [if_neg hcn] at hlk
        simp at hlk

theorem buildContext_n2k_complete (salt : String) :
    ∀ (currents : List CurrentSnap) (m : List (String × CurrentSnap))
      (n2k : List (String × String)) (js : List currentSnapV2JSON) (c : CurrentSnap),
      buildContext salt currents = .ok (m, n2k, js) → c ∈ currents →
      ∃ v, mapLookup n2k c.instanceName = some v
  | [], m, n2k, js, c => by
    intro _ hmem
    simp at hmem
  | c0 :: rest, m, n2k, js, c => by
    intro h hmem
    obtain ⟨key, m', n2k', js', hk, hr, -, hn2k, -⟩ := buildContext_cons_inv _ _ _ _ _ _ h
    subst hn2k
    rcases List.mem_cons.mp hmem with rfl | hmem'
    · cases hrest : mapLookup n2k' c.instanceName with
      | some v => exact ⟨v, by simp [mapLookup, hrest]⟩
      | none => exact ⟨key, by simp [mapLookup, hrest]⟩
    · obtain ⟨v, hv⟩ := buildContext_n2k_complete salt rest m' n2k' js' c hr hmem'
      exact ⟨v, by simp [mapLookup, hv]⟩

theorem buildContext_entry (salt : String) :
    ∀ (currents : List CurrentSnap) (m : List (String × CurrentSnap))
      (n2k : List (String × String)) (js : List currentSnapV2JSON) (c : CurrentSnap),
      buildContext salt currents = .ok (m, n2k, js) → c ∈ currents →
      ∃ key, genInstanceKey c salt = .ok key ∧ mkCurrentSnapJSON c key ∈ js
  | [], m, n2k, js, c => by
    intro _ hmem
    simp at hmem
  | c0 :: rest, m, n2k, js, c => by
    intro h hmem
    obtain ⟨key, m', n2k', js', hk, hr, -, -, hjs⟩ := buildContext_cons_inv _ _ _ _ _ _ h
    subst hjs
    rcases List.mem_cons.mp hmem with rfl | hmem'
    · exact ⟨key, hk, List.mem_cons_self _ _⟩
    · obtain ⟨key', hk', hmem''⟩ := buildContext_entry salt rest m' n2k' js' c hr hmem'
      exact ⟨key', hk', List.mem_cons_of_mem _ hmem''⟩

theorem buildActions_cons_inv (nameToKey : List (String × String)) (iN dN : Nat)
    (a : SnapAction) (rest : List SnapAction) (ab : actionsBuild)
    (h : buildActions nameToKey iN dN (a :: rest) = .ok ab) :
    ∃ aJSON a1 key iN1 dN1 ab',
      buildActionEntry nameToKey iN dN a = .ok (aJSON, a1, key, iN1, dN1) ∧
      buildActions nameToKey iN1 dN1 rest = .ok ab' ∧
      ab = { installs := (if a.action = "install" then [(key, a1)] else []) ++ ab'.installs
             downloads := (if a.action = "download" then [(key, a1)] else []) ++ ab'.downloads
             refreshes :=
               (if a.action ≠ "install" ∧ a.action ≠ "download" then [(key, a1)] else [])
                 ++ ab'.refreshes
             actionJSONs := aJSON :: ab'.actionJSONs
             mutActions := a1 :: ab'.mutActions } := by
  unfold buildActions at h
  split at h
  next e he => simp at h
  next aJSON a1 key iN1 dN1 he =>
    split at h
    next e hr => simp at h
    next ab' hr =>
      exact ⟨aJSON, a1, key, iN1, dN1, ab', he, hr, (Except.ok.inj h).symm⟩

theorem buildActions_refresh_json (nameToKey : List (String × String)) :
    ∀ (acts : List SnapAction) (iN dN : Nat) (ab : actionsBuild) (j : Nat) (a : SnapAction),
      buildActions nameToKey iN dN acts = .ok ab → acts.get? j = some a →
      a.action = "refresh" →
      ∃ aj, ab.actionJSONs.get? j = some aj ∧
        aj.instanceKey = (mapLookup nameToKey a.instanceName).getD ""
  | [], iN, dN, ab, j, a => by
    intro _ hj _
    simp at hj
  | a0 :: rest, iN, dN, ab, j, a => by
    intro h hj har
    obtain ⟨aJSON, a1, key, iN1, dN1, ab', he, hr, hab⟩ :=
      buildActions_cons_inv _ _ _ _ _ _ h
    cases j with
    | zero =>
      obtain rfl : a0 = a := Option.some.inj hj
      obtain ⟨-, -, -, haj, -, -, hrefresh⟩ := buildActionEntry_inv _ _ _ _ _ _ _ _ _ he
      obtain ⟨hkey, -, -⟩ := hrefresh har
      refine ⟨aJSON, ?_, ?_⟩
      · rw [hab]
        rfl
      · rw [haj, ← hkey]
    | succ j' =>
      have hj' : rest.get? j' = some a := hj
      obtain ⟨aj, haj, hik⟩ :=
        buildActions_refresh_json nameToKey rest iN1 dN1 ab' j' a hr hj' har
      refine ⟨aj, ?_, hik⟩
      rw [hab]
      simpa using haj

theorem buildActions_mut (nameToKey : List (String × String)) :
    ∀ (acts : List SnapAction) (iN dN : Nat) (ab : actionsBuild) (j : Nat) (a : SnapAction),
      buildActions nameToKey iN dN acts = .ok ab → acts.get? j = some a →
      ab.mutActions.get? j = some (if a.revision.unset then a else { a with channel := "" })
  | [], iN, dN, ab, j, a => by
    intro _ hj
    simp at hj
  | a0 :: rest, iN, dN, ab, j, a => by
    intro h hj
    obtain ⟨aJSON, a1, key, iN1, dN1, ab', he, hr, hab⟩ :=
      buildActions_cons_inv _ _ _ _ _ _ h
    cases j with
    | zero =>
      obtain rfl : a0 = a := Option.some.inj hj
      obtain ⟨-, -, ha1, -, -, -, -⟩ := buildActionEntry_inv _ _ _ _ _ _ _ _ _ he
      rw [hab]
      simpa using ha1.symm ▸ rfl
    | succ j' =>
      have hj' : rest.get? j' = some a := hj
      have ih := buildActions_mut nameToKey rest iN1 dN1 ab' j' a hr hj'
      rw [hab]
      simpa using ih

theorem mapLookup_mem {β : Type} :
    ∀ (l : List (String × β)) (k : String) (v : β),
      mapLookup l k = some v → (k, v) ∈ l
  | [], k, v => by intro h; simp [mapLookup] at h
  | (k', v') :: t, k, v => by
    intro h
    revert h
    simp only [mapLookup]
    cases ht : mapLookup t k with
    | some w =>
      intro h
      have hw : w = v := Option.some.inj h
      exact hw ▸ List.mem_cons_of_mem _ (mapLookup_mem t k w ht)
    | none =>
      intro h
      by_cases hk : k' = k
      · rw [if_pos hk] at h
        obtain rfl : v' = v := Option.some.inj h
        subst hk
        exact List.mem_cons_self _ _
      · rw [if_neg hk] at h
        simp at h

theorem buildActions_tables_mut (nameToKey : List (String × String)) :
    ∀ (acts : List SnapAction) (iN dN : Nat) (ab : actionsBuild) (p : String × SnapAction),
      buildActions nameToKey iN dN acts = .ok ab →
      (p ∈ ab.installs ∨ p ∈ ab.downloads ∨ p ∈ ab.refreshes) →
      p.2.revision.unset = false → p.2.channel = ""
  | [], iN, dN, ab, p => by
    intro h hmem _
    have hab : ab = ⟨[], [], [], [], []⟩ := (Except.ok.inj h).symm
    subst hab
    simp at hmem
  | a0 :: rest, iN, dN, ab, p => by
    intro h hmem hrev
    obtain ⟨aJSON, a1, key, iN1, dN1, ab', he, hr, hab⟩ :=
      buildActions_cons_inv _ _ _ _ _ _ h
    obtain ⟨-, -, ha1, -, -, -, -⟩ := buildActionEntry_inv _ _ _ _ _ _ _ _ _ he
    have hhead : p = (key, a1) → p.2.channel = "" := by
      intro hp
      have hp2 : p.2 = a1 := by rw [hp]
      rw [hp2] at hrev ⊢
      rw [ha1] at hrev ⊢
      by_cases hu : a0.revision.unset
      · rw [if_pos hu] at hrev
        rw [hu] at hrev
        simp at hrev
      · rw [if_neg hu]
    subst hab
    simp only [List.mem_append] at hmem
    have htail : (p ∈ ab'.installs ∨ p ∈ ab'.downloads ∨ p ∈ ab'.refreshes) →
        p.2.channel = "" := fun hm =>
      buildActions_tables_mut nameToKey rest iN1 dN1 ab' p hr hm hrev
    rcases hmem with hm | hm | hm
    · rcases hm with hm | hm
      · revert hm
        split
        · intro hm
          exact hhead (by simpa using hm)
        · intro hm; simp at hm
      · exact htail (.inl hm)
    · rcases hm with hm | hm
      · revert hm
        split
        · intro hm
          exact hhead (by simpa using hm)
        · intro hm; simp at hm
      · exact htail (.inr (.inl hm))
    · rcases hm with hm | hm
      · revert hm
        split
        · intro hm
          exact hhead (by simpa using hm)
        · intro hm; simp at hm
      · exact htail (.inr (.inr hm))

theorem buildRequest_inv (currentSnaps : List CurrentSnap) (actions : List SnapAction)
    (salt : String) (bst : builtRequest)
    (h : buildRequest currentSnaps actions salt = .ok bst) :
    ∃ m n2k js ab,
      buildContext salt currentSnaps = .ok (m, n2k, js) ∧
      buildActions n2k 0 0 actions = .ok ab ∧
      bst = { curSnaps := m, instanceNameToKey := n2k, curSnapJSONs := js,
              installs := ab.installs, downloads := ab.downloads, refreshes := ab.refreshes,
              actionJSONs := ab.actionJSONs, mutActions := ab.mutActions } := by
  unfold buildRequest at h
  split at h
  next e hc => simp at h
  next m n2k js hc =>
    split at h
    next e ha => simp at h
    next ab ha =>
      exact ⟨m, n2k, js, ab, hc, ha, (Except.ok.inj h).symm⟩

/-! ## Claims C8 and C10 -/

/-- Claim C8: in a valid input, a `refresh` action's instance key is
obtained only by the instance-name lookup (never a counter) and equals the
key derived for the unique current snap with the same instance name; that
key appears verbatim in the serialized action entry and in the serialized
context entry of that snap. -/
theorem claimC8_refresh_instance_key (currents : List CurrentSnap) (salt : String)
    (m : List (String × CurrentSnap)) (n2k : List (String × String))
    (js : List currentSnapV2JSON) (acts : List SnapAction) (ab : actionsBuild)
    (j : Nat) (a : SnapAction) (cur : CurrentSnap) (key : String)
    (hctx : buildContext salt currents = .ok (m, n2k, js))
    (hacts : buildActions n2k 0 0 acts = .ok ab)
    (hja : acts.get? j = some a) (har : a.action = "refresh")
    (hmem : cur ∈ currents) (hname : cur.instanceName = a.instanceName)
    (huniq : ∀ c ∈ currents, c.instanceName = a.instanceName → c = cur)
    (hkey : genInstanceKey cur salt = .ok key) :
    mapLookup n2k a.instanceName = some key ∧
    (∃ aj, ab.actionJSONs.get? j = some aj ∧ aj.instanceKey = key ∧
      mapLookup (snapActionJSONFields aj) "instance-key" = some (.str key)) ∧
    (∃ en, en ∈ js ∧ en.snapID = cur.snapID ∧ en.instanceKey = key ∧
      mapLookup (currentSnapV2JSONFields en) "instance-key" = some (.str key)) := by
  have h1 : mapLookup n2k a.instanceName = some key := by
    obtain ⟨v, hv⟩ := buildContext_n2k_complete salt currents m n2k js cur hctx hmem
    rw [hname] at hv
    obtain ⟨c', hc'mem, hc'name, hc'key⟩ :=
      buildContext_n2k_sound salt currents m n2k js a.instanceName v hctx hv
    have hc'cur : c' = cur := huniq c' hc'mem hc'name
    rw [hc'cur] at hc'key
    have hveq : v = key := Except.ok.inj (hc'key.symm.trans hkey)
    rw [hveq] at hv
    exact hv
  refine ⟨h1, ?_, ?_⟩
  · obtain ⟨aj, haj, hik⟩ := buildActions_refresh_json n2k acts 0 0 ab j a hacts hja har
    have hik' : aj.instanceKey = key := by rw [hik, h1]; rfl
    exact ⟨aj, haj, hik', by rw [saj_lookup_instanceKey, hik']⟩
  · obtain ⟨key', hk', hmemjs⟩ := buildContext_entry salt currents m n2k js cur hctx hmem
    have hkk : key' = key := Except.ok.inj (hk'.symm.trans hkey)
    subst hkk
    exact ⟨mkCurrentSnapJSON cur key', hmemjs, rfl, rfl, by rw [ctx_lookup_instanceKey]; rfl⟩

/-- The current snap of the claim C8 witness scenario. -/
def c8cur : CurrentSnap :=
  { instanceName := "hello", snapID := "sid", revision := ⟨1⟩, trackingChannel := "",
    refreshedDate := 0, ignoreValidation := false, block := [], epoch := ⟨[0], [0]⟩,
    cohortKey := "" }

/-- The refresh action of the claim C8 witness scenario. -/
def c8act : SnapAction :=
  { action := "refresh", instanceName := "hello", snapID := "", channel := "",
    revision := ⟨0⟩, cohortKey := "", flags := 0, epoch := ⟨[0], [0]⟩ }

/-- The action JSON entry of the claim C8 witness scenario. -/
def c8aj : snapActionJSON :=
  { action := "refresh", instanceKey := "sid", name := "", snapID := "", channel := "",
    revision := 0, cohortKey := "", ignoreValidation := none, epoch := none }

/-- The actions-build output of the claim C8 witness scenario. -/
def c8ab : actionsBuild :=
  { installs := [], downloads := [], refreshes := [("sid", c8act)],
    actionJSONs := [c8aj], mutActions := [c8act] }

/-- Witness for claim C8 at a one-snap, one-refresh input (no suffix, so the
derived key is the snap id). -/
theorem claimC8_witness :
    mapLookup [("hello", "sid")] "hello" = some "sid" := by
  have h := claimC8_refresh_instance_key [c8cur] "s" [("sid", c8cur)] [("hello", "sid")]
    [mkCurrentSnapJSON c8cur "sid"] [c8act] c8ab 0 c8act c8cur "sid"
    rfl rfl rfl rfl (by simp) rfl (by intro c hc _; simpa [c8cur] using hc) rfl
  exact h.1

/-- Claim C10: request building mutates the caller's actions — every action
with a set revision has its Channel overwritten with the empty string; the
mutated actions are what the call returns to the caller, what the
install/download/refresh tables hold, what the refresh-error channel
selection sees (recording channel "" for a revision-pinned action), and what
a retry iteration of the auth-refresh loop receives. -/
theorem claimC10_channel_mutation :
    (∀ (nameToKey : List (String × String)) (iN dN : Nat) (a : SnapAction)
        (aj : snapActionJSON) (a1 : SnapAction) (key : String) (iN1 dN1 : Nat),
      buildActionEntry nameToKey iN dN a = .ok (aj, a1, key, iN1, dN1) →
      a1 = (if a.revision.unset then a else { a with channel := "" })) ∧
    (∀ (dec : storeSnap → Except String snapInfo) (currents : List CurrentSnap)
        (acts : List SnapAction) (salt : String) (resp : snapActionResultList) out
        (j : Nat) (a : SnapAction),
      snapActionCore dec currents acts salt resp = .ok out → acts.get? j = some a →
      out.2.get? j = some (if a.revision.unset then a else { a with channel := "" })) ∧
    (∀ (nameToKey : List (String × String)) (iN dN : Nat) (acts : List SnapAction)
        (ab : actionsBuild) (k : String) (a1 : SnapAction),
      buildActions nameToKey iN dN acts = .ok ab →
      (mapLookup ab.installs k = some a1 ∨ mapLookup ab.downloads k = some a1 ∨
        mapLookup ab.refreshes k = some a1) →
      a1.revision.unset = false → a1.channel = "") ∧
    (∀ (dec : storeSnap → Except String snapInfo) (bst : builtRequest) (st : corrState)
        (res : snapActionResult) (cur : CurrentSnap) (a : SnapAction),
      res.result = "error" →
      mapLookup bst.installs res.instanceKey = none →
      mapLookup bst.downloads res.instanceKey = none →
      mapLookup bst.curSnaps res.instanceKey = some cur →
      mapLookup bst.refreshes res.instanceKey = some a →
      a.revision.unset = false → a.channel = "" →
      processOneResult dec bst st res = .ok { st with refreshErrors := st.refreshErrors ++
        [(cur.instanceName,
          translateSnapActionError "refresh" "" res.error.code res.error.message
            res.error.releases)] }) ∧
    (∀ (inner : Nat → List SnapAction → innerResult × List SnapAction)
        (ro : Nat → Option String) (left k : Nat) (acts : List SnapAction),
      shouldRetry (inner k acts).1 = true →
      (snapActionLoop inner ro (left + 1) k acts).1 =
        (snapActionLoop inner ro left (k + 1) (inner k acts).2).1 ∧
      (snapActionLoop inner ro (left + 1) k acts).2.1 =
        (snapActionLoop inner ro left (k + 1) (inner k acts).2).2.1) := by
  refine ⟨?_, ?_, ?_, ?_, ?_⟩
  · intro nameToKey iN dN a aj a1 key iN1 dN1 hok
    obtain ⟨-, -, ha1, -⟩ := buildActionEntry_inv _ _ _ _ _ _ _ _ _ hok
    exact ha1
  · intro dec currents acts salt resp out j a hok hj
    revert hok
    unfold snapActionCore
    intro hok
    split at hok
    next e hb => simp at hok
    next bst hb =>
      split at hok
      next e hp => simp at hok
      next st hp =>
        have hout := (Except.ok.inj hok).symm
        obtain ⟨m, n2k, js, ab, hc, ha, hbst⟩ := buildRequest_inv _ _ _ _ hb
        have h2 : out.2 = ab.mutActions := by rw [hout, hbst]
        rw [h2]
        exact buildActions_mut n2k acts 0 0 ab j a ha hj
  · intro nameToKey iN dN acts ab k a1 hok hlk hrev
    have hmem : ((k, a1) ∈ ab.installs ∨ (k, a1) ∈ ab.downloads ∨ (k, a1) ∈ ab.refreshes) := by
      rcases hlk with h | h | h
      · exact .inl (mapLookup_mem _ _ _ h)
      · exact .inr (.inl (mapLookup_mem _ _ _ h))
      · exact .inr (.inr (mapLookup_mem _ _ _ h))
    exact buildActions_tables_mut nameToKey acts iN dN ab (k, a1) hok hmem hrev
  · intro dec bst st res cur a hres hi hd hcur ha hrev hch
    simp only [processOneResult, hres]
    rw [hi, hd, hcur, ha]
    simp [hch, hrev]
  · intro inner ro left k acts h
    constructor <;> simp [snapActionLoop, h]

/-- The original action of the claim C10 witness scenario (revision pinned,
channel "beta"). -/
def c10act : SnapAction :=
  { action := "refresh", instanceName := "hello", snapID := "", channel := "beta",
    revision := ⟨7⟩, cohortKey := "", flags := 0, epoch := ⟨[0], [0]⟩ }

/-- The mutated action of the claim C10 witness scenario. -/
def c10mut : SnapAction := { c10act with channel := "" }

/-- The action JSON entry of the claim C10 witness scenario (it keeps the
original channel). -/
def c10aj : snapActionJSON :=
  { action := "refresh", instanceKey := "k", name := "", snapID := "", channel := "beta",
    revision := 7, cohortKey := "", ignoreValidation := none, epoch := none }

/-- Witness for claim C10: a revision-pinned refresh action comes out of
entry building with its channel cleared. -/
theorem claimC10_witness :
    c10mut = (if c10act.revision.unset then c10act else { c10act with channel := "" }) :=
  claimC10_channel_mutation.1 [("hello", "k")] 0 0 c10act c10aj c10mut "k" 0 0 rfl

end Store
